import Mathlib

/-!
Verification development for the agent event bridge of the
`claude-code-telegram` repository: a shallow embedding of
`src/events/handlers.py` (AgentHandler) and
`src/notifications/even_g2.py` (EvenG2NotificationService),
together with the execution-with-fallback policy of the Claude facade.

Machine strings are modelled as Lean `String`s (lists of characters);
the filesystem and the two HTTP collaborators (agent backend, bridge
endpoint) are oracles passed to the handlers, so every theorem below
quantifies over their behaviour.
-/

/-! ## Python-value model

Webhook payloads are arbitrary nested JSON-like mappings
(`Dict[str, Any]` in the source).  `PyValue` is the recursive tagged
union the spec prescribes for them.  Floating-point scalars are not
modelled (no handler code path inspects them). -/

inductive PyValue where
  | str (s : String)
  | int (n : Int)
  | bool (b : Bool)
  | none
  | list (xs : List PyValue)
  | dict (xs : List (String × PyValue))

/-- Python whitespace as used by `str.strip()` and the regex class `\s`
(both follow `str.isspace`, the same set of code points). -/
def isPyWs (c : Char) : Bool :=
  c.toNat ∈ ([0x9, 0xa, 0xb, 0xc, 0xd, 0x1c, 0x1d, 0x1e, 0x1f, 0x20, 0x85, 0xa0,
    0x1680, 0x2000, 0x2001, 0x2002, 0x2003, 0x2004, 0x2005, 0x2006, 0x2007, 0x2008,
    0x2009, 0x200a, 0x2028, 0x2029, 0x202f, 0x205f, 0x3000] : List Nat)

/-- Remove a trailing run of Python whitespace (the right half of
`str.strip()`), written as a structural recursion instead of
reverse/dropWhile/reverse so that proofs stay first-order. -/
def dropTrailingWs : List Char → List Char
  | [] => []
  | c :: cs =>
    match dropTrailingWs cs with
    | [] => if isPyWs c then [] else [c]
    | rest => c :: rest

/-- Python `str.strip()` on the character list. -/
def pyStripList (l : List Char) : List Char :=
  dropTrailingWs (l.dropWhile isPyWs)

/-- Python `str.strip()`. -/
def pyStrip (s : String) : String :=
  ⟨pyStripList s.data⟩

mutual

/-- Python `repr` for JSON-like values, used by `str` on containers.
Approximates CPython output (single-quoted strings, no escaping); the
handlers only ever stringify containers through this path and no claim
inspects the result. -/
def pyRepr : PyValue → String
  | .str s => "\x27" ++ s ++ "\x27"
  | .int n => toString n
  | .bool b => if b then "True" else "False"
  | .none => "None"
  | .list xs => "[" ++ pyReprList xs ++ "]"
  | .dict xs => "\x7b" ++ pyReprDict xs ++ "\x7d"

/-- Comma-separated `repr` of the elements of a Python list. -/
def pyReprList : List PyValue → String
  | [] => ""
  | [x] => pyRepr x
  | x :: y :: xs => pyRepr x ++ ", " ++ pyReprList (y :: xs)

/-- Comma-separated `repr` of the entries of a Python dict. -/
def pyReprDict : List (String × PyValue) → String
  | [] => ""
  | [kv] => "\x27" ++ kv.1 ++ "\x27: " ++ pyRepr kv.2
  | kv :: kw :: xs => "\x27" ++ kv.1 ++ "\x27: " ++ pyRepr kv.2 ++ ", " ++ pyReprDict (kw :: xs)

end

/-- Python `str()` on JSON-like values: identity on strings,
`True`/`False`/`None` for booleans and `None`, decimal for integers,
`repr` for containers. -/
def pyStr : PyValue → String
  | .str s => s
  | .int n => toString n
  | .bool b => if b then "True" else "False"
  | .none => "None"
  | .list xs => pyRepr (.list xs)
  | .dict xs => pyRepr (.dict xs)

/-- Python `payload.get(key)`: first binding of the key, if any. -/
def payloadGet (payload : List (String × PyValue)) (key : String) : Option PyValue :=
  (payload.find? (fun kv => kv.1 == key)).map (fun kv => kv.2)

/-! ## Regular-expression substitution engine

`_to_plain_text` in `src/notifications/even_g2.py` is a pipeline of
`re.sub` calls.  Each regex is modelled as a matcher that, looking at
the head character `c` and the tail `cs`, either fails or returns
`(k, repl)`: the match consumed `c` plus the first `k` characters of
`cs` and is replaced by `repl`.  `reSub` is `re.sub`'s left-to-right,
non-overlapping scan, driven by a fuel argument equal to the input
length so that it is structurally recursive and kernel-evaluable. -/

def reSubGo (m : Char → List Char → Option (Nat × List Char)) :
    Nat → List Char → List Char
  | _, [] => []
  | 0, l => l
  | fuel + 1, c :: cs =>
    match m c cs with
    | some (k, repl) => repl ++ reSubGo m fuel (cs.drop k)
    | none => c :: reSubGo m fuel cs

/-- `re.sub` with matcher `m` over a character list. -/
def reSub (m : Char → List Char → Option (Nat × List Char)) (l : List Char) : List Char :=
  reSubGo m l.length l

/-- Matcher for `(?i)<br\s*/?>`, replaced by a newline. -/
def matchBr (c : Char) (cs : List Char) : Option (Nat × List Char) :=
  if c = '<' then
    match cs with
    | c1 :: c2 :: rest =>
      if c1.toLower = 'b' ∧ c2.toLower = 'r' then
        let ws := rest.takeWhile isPyWs
        match rest.drop ws.length with
        | '/' :: '>' :: _ => some (2 + ws.length + 2, ['\n'])
        | '>' :: _ => some (2 + ws.length + 1, ['\n'])
        | _ => none
      else none
    | _ => none
  else none

/-- Matcher for `(?i)<p(?:\s+[^>]*)?>`, replaced by a newline.  The
optional attribute group requires at least one whitespace character
directly after the tag name, then runs to the first `>`. -/
def matchPOpen (c : Char) (cs : List Char) : Option (Nat × List Char) :=
  if c = '<' then
    match cs with
    | p :: rest =>
      if p.toLower = 'p' then
        match rest with
        | '>' :: _ => some (2, ['\n'])
        | d :: _ =>
          if isPyWs d then
            let mid := rest.takeWhile (fun x => x ≠ '>')
            match rest.drop mid.length with
            | '>' :: _ => some (1 + mid.length + 1, ['\n'])
            | _ => none
          else none
        | [] => none
      else none
    | [] => none
  else none

/-- Matcher for `(?i)</p>`, replaced by a newline. -/
def matchPClose (c : Char) (cs : List Char) : Option (Nat × List Char) :=
  if c = '<' then
    match cs with
    | '/' :: p :: '>' :: _ => if p.toLower = 'p' then some (3, ['\n']) else none
    | _ => none
  else none

/-- The allow-listed Telegram formatting tag names of
`TELEGRAM_FORMAT_TAG_RE`, in the alternation order of the regex. -/
def tagNames : List (List Char) :=
  ["b", "strong", "i", "em", "u", "s", "del", "code", "pre", "blockquote", "a"].map
    String.data

/-- Case-insensitive test that `pat` (given lowercase) begins `cs`. -/
def ciStarts : List Char → List Char → Bool
  | [], _ => true
  | _ :: _, [] => false
  | a :: as, b :: bs => a == b.toLower && ciStarts as bs

/-- After a tag name: match `(?:\s+[^>]*)?>` and return the number of
characters consumed. -/
def tagClose (rest : List Char) : Option Nat :=
  match rest with
  | '>' :: _ => some 1
  | d :: _ =>
    if isPyWs d then
      let mid := rest.takeWhile (fun x => x ≠ '>')
      match rest.drop mid.length with
      | '>' :: _ => some (mid.length + 1)
      | _ => none
    else none
  | [] => none

/-- Try the alternation of tag names in regex order; Python's engine
backtracks to the next alternative when the tail fails to close. -/
def matchTagFrom (cs : List Char) : List (List Char) → Option Nat
  | [] => none
  | name :: rest =>
    if ciStarts name cs then
      match tagClose (cs.drop name.length) with
      | some k => some (name.length + k)
      | none => matchTagFrom cs rest
    else matchTagFrom cs rest

/-- Matcher for `TELEGRAM_FORMAT_TAG_RE =
(?is)</?(?:b|strong|i|em|u|s|del|code|pre|blockquote|a)(?:\s+[^>]*)?>`,
replaced by the empty string. -/
def matchFormatTag (c : Char) (cs : List Char) : Option (Nat × List Char) :=
  if c = '<' then
    match cs with
    | '/' :: cs2 => (matchTagFrom cs2 tagNames).map (fun k => (k + 1, []))
    | _ => (matchTagFrom cs tagNames).map (fun k => (k, []))
  else none

/-! ### HTML entity decoding

Models Python's `html.unescape`: the character-reference regex
`&(#[0-9]+;?|#[xX][0-9a-fA-F]+;?|[^\t\n\f <&#;]{1,32};?)` and
`html._replace_charref`, with the full HTML5 named-reference table and
the numeric-reference quirk tables of the `html` module. -/

/-- The HTML5 named character reference table (`html.entities.html5`),
split into chunks to keep elaboration cheap. -/
def entityChunk0 : List (String × String) := [
  ("AElig", "Æ"),
  ("AElig;", "Æ"),
  ("AMP", "&"),
  ("AMP;", "&"),
  ("Aacute", "Á"),
  ("Aacute;", "Á"),
  ("Abreve;", "Ă"),
  ("Acirc", "Â"),
  ("Acirc;", "Â"),
  ("Acy;", "А"),
  ("Afr;", "𝔄"),
  ("Agrave", "À"),
  ("Agrave;", "À"),
  ("Alpha;", "Α"),
  ("Amacr;", "Ā"),
  ("And;", "⩓"),
  ("Aogon;", "Ą"),
  ("Aopf;", "𝔸"),
  ("ApplyFunction;", "⁡"),
  ("Aring", "Å"),
  ("Aring;", "Å"),
  ("Ascr;", "𝒜"),
  ("Assign;", "≔"),
  ("Atilde", "Ã"),
  ("Atilde;", "Ã"),
  ("Auml", "Ä"),
  ("Auml;", "Ä"),
  ("Backslash;", "∖"),
  ("Barv;", "⫧"),
  ("Barwed;", "⌆"),
  ("Bcy;", "Б"),
  ("Because;", "∵"),
  ("Bernoullis;", "ℬ"),
  ("Beta;", "Β"),
  ("Bfr;", "𝔅"),
  ("Bopf;", "𝔹"),
  ("Breve;", "˘"),
  ("Bscr;", "ℬ"),
  ("Bumpeq;", "≎"),
  ("CHcy;", "Ч"),
  ("COPY", "©"),
  ("COPY;", "©"),
  ("Cacute;", "Ć"),
  ("Cap;", "⋒"),
  ("CapitalDifferentialD;", "ⅅ"),
  ("Cayleys;", "ℭ"),
  ("Ccaron;", "Č"),
  ("Ccedil", "Ç"),
  ("Ccedil;", "Ç"),
  ("Ccirc;", "Ĉ"),
  ("Cconint;", "∰"),
  ("Cdot;", "Ċ"),
  ("Cedilla;", "¸"),
  ("CenterDot;", "·"),
  ("Cfr;", "ℭ"),
  ("Chi;", "Χ"),
  ("CircleDot;", "⊙"),
  ("CircleMinus;", "⊖"),
  ("CirclePlus;", "⊕"),
  ("CircleTimes;", "⊗"),
  ("ClockwiseContourIntegral;", "∲"),
  ("CloseCurlyDoubleQuote;", "”"),
  ("CloseCurlyQuote;", "’"),
  ("Colon;", "∷"),
  ("Colone;", "⩴"),
  ("Congruent;", "≡"),
  ("Conint;", "∯"),
  ("ContourIntegral;", "∮"),
  ("Copf;", "ℂ"),
  ("Coproduct;", "∐"),
  ("CounterClockwiseContourIntegral;", "∳"),
  ("Cross;", "⨯"),
  ("Cscr;", "𝒞"),
  ("Cup;", "⋓"),
  ("CupCap;", "≍"),
  ("DD;", "ⅅ"),
  ("DDotrahd;", "⤑"),
  ("DJcy;", "Ђ"),
  ("DScy;", "Ѕ"),
  ("DZcy;", "Џ"),
  ("Dagger;", "‡"),
  ("Darr;", "↡"),
  ("Dashv;", "⫤"),
  ("Dcaron;", "Ď"),
  ("Dcy;", "Д"),
  ("Del;", "∇"),
  ("Delta;", "Δ"),
  ("Dfr;", "𝔇"),
  ("DiacriticalAcute;", "´"),
  ("DiacriticalDot;", "˙"),
  ("DiacriticalDoubleAcute;", "˝"),
  ("DiacriticalGrave;", "\x60"),
  ("DiacriticalTilde;", "˜"),
  ("Diamond;", "⋄"),
  ("DifferentialD;", "ⅆ"),
  ("Dopf;", "𝔻"),
  ("Dot;", "¨"),
  ("DotDot;", "⃜"),
  ("DotEqual;", "≐"),
  ("DoubleContourIntegral;", "∯"),
  ("DoubleDot;", "¨"),
  ("DoubleDownArrow;", "⇓"),
  ("DoubleLeftArrow;", "⇐"),
  ("DoubleLeftRightArrow;", "⇔"),
  ("DoubleLeftTee;", "⫤"),
  ("DoubleLongLeftArrow;", "⟸"),
  ("DoubleLongLeftRightArrow;", "⟺"),
  ("DoubleLongRightArrow;", "⟹"),
  ("DoubleRightArrow;", "⇒"),
  ("DoubleRightTee;", "⊨"),
  ("DoubleUpArrow;", "⇑"),
  ("DoubleUpDownArrow;", "⇕"),
  ("DoubleVerticalBar;", "∥"),
  ("DownArrow;", "↓"),
  ("DownArrowBar;", "⤓"),
  ("DownArrowUpArrow;", "⇵"),
  ("DownBreve;", "̑"),
  ("DownLeftRightVector;", "⥐"),
  ("DownLeftTeeVector;", "⥞"),
  ("DownLeftVector;", "↽"),
  ("DownLeftVectorBar;", "⥖"),
  ("DownRightTeeVector;", "⥟"),
  ("DownRightVector;", "⇁"),
  ("DownRightVectorBar;", "⥗"),
  ("DownTee;", "⊤"),
  ("DownTeeArrow;", "↧"),
  ("Downarrow;", "⇓"),
  ("Dscr;", "𝒟"),
  ("Dstrok;", "Đ"),
  ("ENG;", "Ŋ"),
  ("ETH", "Ð"),
  ("ETH;", "Ð"),
  ("Eacute", "É"),
  ("Eacute;", "É"),
  ("Ecaron;", "Ě"),
  ("Ecirc", "Ê"),
  ("Ecirc;", "Ê"),
  ("Ecy;", "Э"),
  ("Edot;", "Ė"),
  ("Efr;", "𝔈"),
  ("Egrave", "È"),
  ("Egrave;", "È"),
  ("Element;", "∈"),
  ("Emacr;", "Ē"),
  ("EmptySmallSquare;", "◻"),
  ("EmptyVerySmallSquare;", "▫"),
  ("Eogon;", "Ę"),
  ("Eopf;", "𝔼"),
  ("Epsilon;", "Ε"),
  ("Equal;", "⩵"),
  ("EqualTilde;", "≂"),
  ("Equilibrium;", "⇌"),
  ("Escr;", "ℰ"),
  ("Esim;", "⩳"),
  ("Eta;", "Η"),
  ("Euml", "Ë"),
  ("Euml;", "Ë"),
  ("Exists;", "∃"),
  ("ExponentialE;", "ⅇ"),
  ("Fcy;", "Ф"),
  ("Ffr;", "𝔉"),
  ("FilledSmallSquare;", "◼"),
  ("FilledVerySmallSquare;", "▪"),
  ("Fopf;", "𝔽"),
  ("ForAll;", "∀"),
  ("Fouriertrf;", "ℱ"),
  ("Fscr;", "ℱ"),
  ("GJcy;", "Ѓ"),
  ("GT", ">"),
  ("GT;", ">"),
  ("Gamma;", "Γ"),
  ("Gammad;", "Ϝ"),
  ("Gbreve;", "Ğ"),
  ("Gcedil;", "Ģ"),
  ("Gcirc;", "Ĝ"),
  ("Gcy;", "Г"),
  ("Gdot;", "Ġ"),
  ("Gfr;", "𝔊"),
  ("Gg;", "⋙"),
  ("Gopf;", "𝔾"),
  ("GreaterEqual;", "≥"),
  ("GreaterEqualLess;", "⋛"),
  ("GreaterFullEqual;", "≧"),
  ("GreaterGreater;", "⪢"),
  ("GreaterLess;", "≷"),
  ("GreaterSlantEqual;", "⩾"),
  ("GreaterTilde;", "≳"),
  ("Gscr;", "𝒢"),
  ("Gt;", "≫"),
  ("HARDcy;", "Ъ"),
  ("Hacek;", "ˇ"),
  ("Hat;", "^"),
  ("Hcirc;", "Ĥ"),
  ("Hfr;", "ℌ"),
  ("HilbertSpace;", "ℋ"),
  ("Hopf;", "ℍ"),
  ("HorizontalLine;", "─"),
  ("Hscr;", "ℋ"),
  ("Hstrok;", "Ħ"),
  ("HumpDownHump;", "≎")
]
def entityChunk1 : List (String × String) := [
  ("HumpEqual;", "≏"),
  ("IEcy;", "Е"),
  ("IJlig;", "Ĳ"),
  ("IOcy;", "Ё"),
  ("Iacute", "Í"),
  ("Iacute;", "Í"),
  ("Icirc", "Î"),
  ("Icirc;", "Î"),
  ("Icy;", "И"),
  ("Idot;", "İ"),
  ("Ifr;", "ℑ"),
  ("Igrave", "Ì"),
  ("Igrave;", "Ì"),
  ("Im;", "ℑ"),
  ("Imacr;", "Ī"),
  ("ImaginaryI;", "ⅈ"),
  ("Implies;", "⇒"),
  ("Int;", "∬"),
  ("Integral;", "∫"),
  ("Intersection;", "⋂"),
  ("InvisibleComma;", "⁣"),
  ("InvisibleTimes;", "⁢"),
  ("Iogon;", "Į"),
  ("Iopf;", "𝕀"),
  ("Iota;", "Ι"),
  ("Iscr;", "ℐ"),
  ("Itilde;", "Ĩ"),
  ("Iukcy;", "І"),
  ("Iuml", "Ï"),
  ("Iuml;", "Ï"),
  ("Jcirc;", "Ĵ"),
  ("Jcy;", "Й"),
  ("Jfr;", "𝔍"),
  ("Jopf;", "𝕁"),
  ("Jscr;", "𝒥"),
  ("Jsercy;", "Ј"),
  ("Jukcy;", "Є"),
  ("KHcy;", "Х"),
  ("KJcy;", "Ќ"),
  ("Kappa;", "Κ"),
  ("Kcedil;", "Ķ"),
  ("Kcy;", "К"),
  ("Kfr;", "𝔎"),
  ("Kopf;", "𝕂"),
  ("Kscr;", "𝒦"),
  ("LJcy;", "Љ"),
  ("LT", "<"),
  ("LT;", "<"),
  ("Lacute;", "Ĺ"),
  ("Lambda;", "Λ"),
  ("Lang;", "⟪"),
  ("Laplacetrf;", "ℒ"),
  ("Larr;", "↞"),
  ("Lcaron;", "Ľ"),
  ("Lcedil;", "Ļ"),
  ("Lcy;", "Л"),
  ("LeftAngleBracket;", "⟨"),
  ("LeftArrow;", "←"),
  ("LeftArrowBar;", "⇤"),
  ("LeftArrowRightArrow;", "⇆"),
  ("LeftCeiling;", "⌈"),
  ("LeftDoubleBracket;", "⟦"),
  ("LeftDownTeeVector;", "⥡"),
  ("LeftDownVector;", "⇃"),
  ("LeftDownVectorBar;", "⥙"),
  ("LeftFloor;", "⌊"),
  ("LeftRightArrow;", "↔"),
  ("LeftRightVector;", "⥎"),
  ("LeftTee;", "⊣"),
  ("LeftTeeArrow;", "↤"),
  ("LeftTeeVector;", "⥚"),
  ("LeftTriangle;", "⊲"),
  ("LeftTriangleBar;", "⧏"),
  ("LeftTriangleEqual;", "⊴"),
  ("LeftUpDownVector;", "⥑"),
  ("LeftUpTeeVector;", "⥠"),
  ("LeftUpVector;", "↿"),
  ("LeftUpVectorBar;", "⥘"),
  ("LeftVector;", "↼"),
  ("LeftVectorBar;", "⥒"),
  ("Leftarrow;", "⇐"),
  ("Leftrightarrow;", "⇔"),
  ("LessEqualGreater;", "⋚"),
  ("LessFullEqual;", "≦"),
  ("LessGreater;", "≶"),
  ("LessLess;", "⪡"),
  ("LessSlantEqual;", "⩽"),
  ("LessTilde;", "≲"),
  ("Lfr;", "𝔏"),
  ("Ll;", "⋘"),
  ("Lleftarrow;", "⇚"),
  ("Lmidot;", "Ŀ"),
  ("LongLeftArrow;", "⟵"),
  ("LongLeftRightArrow;", "⟷"),
  ("LongRightArrow;", "⟶"),
  ("Longleftarrow;", "⟸"),
  ("Longleftrightarrow;", "⟺"),
  ("Longrightarrow;", "⟹"),
  ("Lopf;", "𝕃"),
  ("LowerLeftArrow;", "↙"),
  ("LowerRightArrow;", "↘"),
  ("Lscr;", "ℒ"),
  ("Lsh;", "↰"),
  ("Lstrok;", "Ł"),
  ("Lt;", "≪"),
  ("Map;", "⤅"),
  ("Mcy;", "М"),
  ("MediumSpace;", " "),
  ("Mellintrf;", "ℳ"),
  ("Mfr;", "𝔐"),
  ("MinusPlus;", "∓"),
  ("Mopf;", "𝕄"),
  ("Mscr;", "ℳ"),
  ("Mu;", "Μ"),
  ("NJcy;", "Њ"),
  ("Nacute;", "Ń"),
  ("Ncaron;", "Ň"),
  ("Ncedil;", "Ņ"),
  ("Ncy;", "Н"),
  ("NegativeMediumSpace;", "​"),
  ("NegativeThickSpace;", "​"),
  ("NegativeThinSpace;", "​"),
  ("NegativeVeryThinSpace;", "​"),
  ("NestedGreaterGreater;", "≫"),
  ("NestedLessLess;", "≪"),
  ("NewLine;", "\n"),
  ("Nfr;", "𝔑"),
  ("NoBreak;", "⁠"),
  ("NonBreakingSpace;", " "),
  ("Nopf;", "ℕ"),
  ("Not;", "⫬"),
  ("NotCongruent;", "≢"),
  ("NotCupCap;", "≭"),
  ("NotDoubleVerticalBar;", "∦"),
  ("NotElement;", "∉"),
  ("NotEqual;", "≠"),
  ("NotEqualTilde;", "≂̸"),
  ("NotExists;", "∄"),
  ("NotGreater;", "≯"),
  ("NotGreaterEqual;", "≱"),
  ("NotGreaterFullEqual;", "≧̸"),
  ("NotGreaterGreater;", "≫̸"),
  ("NotGreaterLess;", "≹"),
  ("NotGreaterSlantEqual;", "⩾̸"),
  ("NotGreaterTilde;", "≵"),
  ("NotHumpDownHump;", "≎̸"),
  ("NotHumpEqual;", "≏̸"),
  ("NotLeftTriangle;", "⋪"),
  ("NotLeftTriangleBar;", "⧏̸"),
  ("NotLeftTriangleEqual;", "⋬"),
  ("NotLess;", "≮"),
  ("NotLessEqual;", "≰"),
  ("NotLessGreater;", "≸"),
  ("NotLessLess;", "≪̸"),
  ("NotLessSlantEqual;", "⩽̸"),
  ("NotLessTilde;", "≴"),
  ("NotNestedGreaterGreater;", "⪢̸"),
  ("NotNestedLessLess;", "⪡̸"),
  ("NotPrecedes;", "⊀"),
  ("NotPrecedesEqual;", "⪯̸"),
  ("NotPrecedesSlantEqual;", "⋠"),
  ("NotReverseElement;", "∌"),
  ("NotRightTriangle;", "⋫"),
  ("NotRightTriangleBar;", "⧐̸"),
  ("NotRightTriangleEqual;", "⋭"),
  ("NotSquareSubset;", "⊏̸"),
  ("NotSquareSubsetEqual;", "⋢"),
  ("NotSquareSuperset;", "⊐̸"),
  ("NotSquareSupersetEqual;", "⋣"),
  ("NotSubset;", "⊂⃒"),
  ("NotSubsetEqual;", "⊈"),
  ("NotSucceeds;", "⊁"),
  ("NotSucceedsEqual;", "⪰̸"),
  ("NotSucceedsSlantEqual;", "⋡"),
  ("NotSucceedsTilde;", "≿̸"),
  ("NotSuperset;", "⊃⃒"),
  ("NotSupersetEqual;", "⊉"),
  ("NotTilde;", "≁"),
  ("NotTildeEqual;", "≄"),
  ("NotTildeFullEqual;", "≇"),
  ("NotTildeTilde;", "≉"),
  ("NotVerticalBar;", "∤"),
  ("Nscr;", "𝒩"),
  ("Ntilde", "Ñ"),
  ("Ntilde;", "Ñ"),
  ("Nu;", "Ν"),
  ("OElig;", "Œ"),
  ("Oacute", "Ó"),
  ("Oacute;", "Ó"),
  ("Ocirc", "Ô"),
  ("Ocirc;", "Ô"),
  ("Ocy;", "О"),
  ("Odblac;", "Ő"),
  ("Ofr;", "𝔒"),
  ("Ograve", "Ò"),
  ("Ograve;", "Ò"),
  ("Omacr;", "Ō"),
  ("Omega;", "Ω"),
  ("Omicron;", "Ο"),
  ("Oopf;", "𝕆")
]
def entityChunk2 : List (String × String) := [
  ("OpenCurlyDoubleQuote;", "“"),
  ("OpenCurlyQuote;", "‘"),
  ("Or;", "⩔"),
  ("Oscr;", "𝒪"),
  ("Oslash", "Ø"),
  ("Oslash;", "Ø"),
  ("Otilde", "Õ"),
  ("Otilde;", "Õ"),
  ("Otimes;", "⨷"),
  ("Ouml", "Ö"),
  ("Ouml;", "Ö"),
  ("OverBar;", "‾"),
  ("OverBrace;", "⏞"),
  ("OverBracket;", "⎴"),
  ("OverParenthesis;", "⏜"),
  ("PartialD;", "∂"),
  ("Pcy;", "П"),
  ("Pfr;", "𝔓"),
  ("Phi;", "Φ"),
  ("Pi;", "Π"),
  ("PlusMinus;", "±"),
  ("Poincareplane;", "ℌ"),
  ("Popf;", "ℙ"),
  ("Pr;", "⪻"),
  ("Precedes;", "≺"),
  ("PrecedesEqual;", "⪯"),
  ("PrecedesSlantEqual;", "≼"),
  ("PrecedesTilde;", "≾"),
  ("Prime;", "″"),
  ("Product;", "∏"),
  ("Proportion;", "∷"),
  ("Proportional;", "∝"),
  ("Pscr;", "𝒫"),
  ("Psi;", "Ψ"),
  ("QUOT", "\""),
  ("QUOT;", "\""),
  ("Qfr;", "𝔔"),
  ("Qopf;", "ℚ"),
  ("Qscr;", "𝒬"),
  ("RBarr;", "⤐"),
  ("REG", "®"),
  ("REG;", "®"),
  ("Racute;", "Ŕ"),
  ("Rang;", "⟫"),
  ("Rarr;", "↠"),
  ("Rarrtl;", "⤖"),
  ("Rcaron;", "Ř"),
  ("Rcedil;", "Ŗ"),
  ("Rcy;", "Р"),
  ("Re;", "ℜ"),
  ("ReverseElement;", "∋"),
  ("ReverseEquilibrium;", "⇋"),
  ("ReverseUpEquilibrium;", "⥯"),
  ("Rfr;", "ℜ"),
  ("Rho;", "Ρ"),
  ("RightAngleBracket;", "⟩"),
  ("RightArrow;", "→"),
  ("RightArrowBar;", "⇥"),
  ("RightArrowLeftArrow;", "⇄"),
  ("RightCeiling;", "⌉"),
  ("RightDoubleBracket;", "⟧"),
  ("RightDownTeeVector;", "⥝"),
  ("RightDownVector;", "⇂"),
  ("RightDownVectorBar;", "⥕"),
  ("RightFloor;", "⌋"),
  ("RightTee;", "⊢"),
  ("RightTeeArrow;", "↦"),
  ("RightTeeVector;", "⥛"),
  ("RightTriangle;", "⊳"),
  ("RightTriangleBar;", "⧐"),
  ("RightTriangleEqual;", "⊵"),
  ("RightUpDownVector;", "⥏"),
  ("RightUpTeeVector;", "⥜"),
  ("RightUpVector;", "↾"),
  ("RightUpVectorBar;", "⥔"),
  ("RightVector;", "⇀"),
  ("RightVectorBar;", "⥓"),
  ("Rightarrow;", "⇒"),
  ("Ropf;", "ℝ"),
  ("RoundImplies;", "⥰"),
  ("Rrightarrow;", "⇛"),
  ("Rscr;", "ℛ"),
  ("Rsh;", "↱"),
  ("RuleDelayed;", "⧴"),
  ("SHCHcy;", "Щ"),
  ("SHcy;", "Ш"),
  ("SOFTcy;", "Ь"),
  ("Sacute;", "Ś"),
  ("Sc;", "⪼"),
  ("Scaron;", "Š"),
  ("Scedil;", "Ş"),
  ("Scirc;", "Ŝ"),
  ("Scy;", "С"),
  ("Sfr;", "𝔖"),
  ("ShortDownArrow;", "↓"),
  ("ShortLeftArrow;", "←"),
  ("ShortRightArrow;", "→"),
  ("ShortUpArrow;", "↑"),
  ("Sigma;", "Σ"),
  ("SmallCircle;", "∘"),
  ("Sopf;", "𝕊"),
  ("Sqrt;", "√"),
  ("Square;", "□"),
  ("SquareIntersection;", "⊓"),
  ("SquareSubset;", "⊏"),
  ("SquareSubsetEqual;", "⊑"),
  ("SquareSuperset;", "⊐"),
  ("SquareSupersetEqual;", "⊒"),
  ("SquareUnion;", "⊔"),
  ("Sscr;", "𝒮"),
  ("Star;", "⋆"),
  ("Sub;", "⋐"),
  ("Subset;", "⋐"),
  ("SubsetEqual;", "⊆"),
  ("Succeeds;", "≻"),
  ("SucceedsEqual;", "⪰"),
  ("SucceedsSlantEqual;", "≽"),
  ("SucceedsTilde;", "≿"),
  ("SuchThat;", "∋"),
  ("Sum;", "∑"),
  ("Sup;", "⋑"),
  ("Superset;", "⊃"),
  ("SupersetEqual;", "⊇"),
  ("Supset;", "⋑"),
  ("THORN", "Þ"),
  ("THORN;", "Þ"),
  ("TRADE;", "™"),
  ("TSHcy;", "Ћ"),
  ("TScy;", "Ц"),
  ("Tab;", "\t"),
  ("Tau;", "Τ"),
  ("Tcaron;", "Ť"),
  ("Tcedil;", "Ţ"),
  ("Tcy;", "Т"),
  ("Tfr;", "𝔗"),
  ("Therefore;", "∴"),
  ("Theta;", "Θ"),
  ("ThickSpace;", "  "),
  ("ThinSpace;", " "),
  ("Tilde;", "∼"),
  ("TildeEqual;", "≃"),
  ("TildeFullEqual;", "≅"),
  ("TildeTilde;", "≈"),
  ("Topf;", "𝕋"),
  ("TripleDot;", "⃛"),
  ("Tscr;", "𝒯"),
  ("Tstrok;", "Ŧ"),
  ("Uacute", "Ú"),
  ("Uacute;", "Ú"),
  ("Uarr;", "↟"),
  ("Uarrocir;", "⥉"),
  ("Ubrcy;", "Ў"),
  ("Ubreve;", "Ŭ"),
  ("Ucirc", "Û"),
  ("Ucirc;", "Û"),
  ("Ucy;", "У"),
  ("Udblac;", "Ű"),
  ("Ufr;", "𝔘"),
  ("Ugrave", "Ù"),
  ("Ugrave;", "Ù"),
  ("Umacr;", "Ū"),
  ("UnderBar;", "_"),
  ("UnderBrace;", "⏟"),
  ("UnderBracket;", "⎵"),
  ("UnderParenthesis;", "⏝"),
  ("Union;", "⋃"),
  ("UnionPlus;", "⊎"),
  ("Uogon;", "Ų"),
  ("Uopf;", "𝕌"),
  ("UpArrow;", "↑"),
  ("UpArrowBar;", "⤒"),
  ("UpArrowDownArrow;", "⇅"),
  ("UpDownArrow;", "↕"),
  ("UpEquilibrium;", "⥮"),
  ("UpTee;", "⊥"),
  ("UpTeeArrow;", "↥"),
  ("Uparrow;", "⇑"),
  ("Updownarrow;", "⇕"),
  ("UpperLeftArrow;", "↖"),
  ("UpperRightArrow;", "↗"),
  ("Upsi;", "ϒ"),
  ("Upsilon;", "Υ"),
  ("Uring;", "Ů"),
  ("Uscr;", "𝒰"),
  ("Utilde;", "Ũ"),
  ("Uuml", "Ü"),
  ("Uuml;", "Ü"),
  ("VDash;", "⊫"),
  ("Vbar;", "⫫"),
  ("Vcy;", "В"),
  ("Vdash;", "⊩"),
  ("Vdashl;", "⫦"),
  ("Vee;", "⋁"),
  ("Verbar;", "‖"),
  ("Vert;", "‖"),
  ("VerticalBar;", "∣"),
  ("VerticalLine;", "|"),
  ("VerticalSeparator;", "❘"),
  ("VerticalTilde;", "≀"),
  ("VeryThinSpace;", " ")
]
def entityChunk3 : List (String × String) := [
  ("Vfr;", "𝔙"),
  ("Vopf;", "𝕍"),
  ("Vscr;", "𝒱"),
  ("Vvdash;", "⊪"),
  ("Wcirc;", "Ŵ"),
  ("Wedge;", "⋀"),
  ("Wfr;", "𝔚"),
  ("Wopf;", "𝕎"),
  ("Wscr;", "𝒲"),
  ("Xfr;", "𝔛"),
  ("Xi;", "Ξ"),
  ("Xopf;", "𝕏"),
  ("Xscr;", "𝒳"),
  ("YAcy;", "Я"),
  ("YIcy;", "Ї"),
  ("YUcy;", "Ю"),
  ("Yacute", "Ý"),
  ("Yacute;", "Ý"),
  ("Ycirc;", "Ŷ"),
  ("Ycy;", "Ы"),
  ("Yfr;", "𝔜"),
  ("Yopf;", "𝕐"),
  ("Yscr;", "𝒴"),
  ("Yuml;", "Ÿ"),
  ("ZHcy;", "Ж"),
  ("Zacute;", "Ź"),
  ("Zcaron;", "Ž"),
  ("Zcy;", "З"),
  ("Zdot;", "Ż"),
  ("ZeroWidthSpace;", "​"),
  ("Zeta;", "Ζ"),
  ("Zfr;", "ℨ"),
  ("Zopf;", "ℤ"),
  ("Zscr;", "𝒵"),
  ("aacute", "á"),
  ("aacute;", "á"),
  ("abreve;", "ă"),
  ("ac;", "∾"),
  ("acE;", "∾̳"),
  ("acd;", "∿"),
  ("acirc", "â"),
  ("acirc;", "â"),
  ("acute", "´"),
  ("acute;", "´"),
  ("acy;", "а"),
  ("aelig", "æ"),
  ("aelig;", "æ"),
  ("af;", "⁡"),
  ("afr;", "𝔞"),
  ("agrave", "à"),
  ("agrave;", "à"),
  ("alefsym;", "ℵ"),
  ("aleph;", "ℵ"),
  ("alpha;", "α"),
  ("amacr;", "ā"),
  ("amalg;", "⨿"),
  ("amp", "&"),
  ("amp;", "&"),
  ("and;", "∧"),
  ("andand;", "⩕"),
  ("andd;", "⩜"),
  ("andslope;", "⩘"),
  ("andv;", "⩚"),
  ("ang;", "∠"),
  ("ange;", "⦤"),
  ("angle;", "∠"),
  ("angmsd;", "∡"),
  ("angmsdaa;", "⦨"),
  ("angmsdab;", "⦩"),
  ("angmsdac;", "⦪"),
  ("angmsdad;", "⦫"),
  ("angmsdae;", "⦬"),
  ("angmsdaf;", "⦭"),
  ("angmsdag;", "⦮"),
  ("angmsdah;", "⦯"),
  ("angrt;", "∟"),
  ("angrtvb;", "⊾"),
  ("angrtvbd;", "⦝"),
  ("angsph;", "∢"),
  ("angst;", "Å"),
  ("angzarr;", "⍼"),
  ("aogon;", "ą"),
  ("aopf;", "𝕒"),
  ("ap;", "≈"),
  ("apE;", "⩰"),
  ("apacir;", "⩯"),
  ("ape;", "≊"),
  ("apid;", "≋"),
  ("apos;", "\x27"),
  ("approx;", "≈"),
  ("approxeq;", "≊"),
  ("aring", "å"),
  ("aring;", "å"),
  ("ascr;", "𝒶"),
  ("ast;", "*"),
  ("asymp;", "≈"),
  ("asympeq;", "≍"),
  ("atilde", "ã"),
  ("atilde;", "ã"),
  ("auml", "ä"),
  ("auml;", "ä"),
  ("awconint;", "∳"),
  ("awint;", "⨑"),
  ("bNot;", "⫭"),
  ("backcong;", "≌"),
  ("backepsilon;", "϶"),
  ("backprime;", "‵"),
  ("backsim;", "∽"),
  ("backsimeq;", "⋍"),
  ("barvee;", "⊽"),
  ("barwed;", "⌅"),
  ("barwedge;", "⌅"),
  ("bbrk;", "⎵"),
  ("bbrktbrk;", "⎶"),
  ("bcong;", "≌"),
  ("bcy;", "б"),
  ("bdquo;", "„"),
  ("becaus;", "∵"),
  ("because;", "∵"),
  ("bemptyv;", "⦰"),
  ("bepsi;", "϶"),
  ("bernou;", "ℬ"),
  ("beta;", "β"),
  ("beth;", "ℶ"),
  ("between;", "≬"),
  ("bfr;", "𝔟"),
  ("bigcap;", "⋂"),
  ("bigcirc;", "◯"),
  ("bigcup;", "⋃"),
  ("bigodot;", "⨀"),
  ("bigoplus;", "⨁"),
  ("bigotimes;", "⨂"),
  ("bigsqcup;", "⨆"),
  ("bigstar;", "★"),
  ("bigtriangledown;", "▽"),
  ("bigtriangleup;", "△"),
  ("biguplus;", "⨄"),
  ("bigvee;", "⋁"),
  ("bigwedge;", "⋀"),
  ("bkarow;", "⤍"),
  ("blacklozenge;", "⧫"),
  ("blacksquare;", "▪"),
  ("blacktriangle;", "▴"),
  ("blacktriangledown;", "▾"),
  ("blacktriangleleft;", "◂"),
  ("blacktriangleright;", "▸"),
  ("blank;", "␣"),
  ("blk12;", "▒"),
  ("blk14;", "░"),
  ("blk34;", "▓"),
  ("block;", "█"),
  ("bne;", "=⃥"),
  ("bnequiv;", "≡⃥"),
  ("bnot;", "⌐"),
  ("bopf;", "𝕓"),
  ("bot;", "⊥"),
  ("bottom;", "⊥"),
  ("bowtie;", "⋈"),
  ("boxDL;", "╗"),
  ("boxDR;", "╔"),
  ("boxDl;", "╖"),
  ("boxDr;", "╓"),
  ("boxH;", "═"),
  ("boxHD;", "╦"),
  ("boxHU;", "╩"),
  ("boxHd;", "╤"),
  ("boxHu;", "╧"),
  ("boxUL;", "╝"),
  ("boxUR;", "╚"),
  ("boxUl;", "╜"),
  ("boxUr;", "╙"),
  ("boxV;", "║"),
  ("boxVH;", "╬"),
  ("boxVL;", "╣"),
  ("boxVR;", "╠"),
  ("boxVh;", "╫"),
  ("boxVl;", "╢"),
  ("boxVr;", "╟"),
  ("boxbox;", "⧉"),
  ("boxdL;", "╕"),
  ("boxdR;", "╒"),
  ("boxdl;", "┐"),
  ("boxdr;", "┌"),
  ("boxh;", "─"),
  ("boxhD;", "╥"),
  ("boxhU;", "╨"),
  ("boxhd;", "┬"),
  ("boxhu;", "┴"),
  ("boxminus;", "⊟"),
  ("boxplus;", "⊞"),
  ("boxtimes;", "⊠"),
  ("boxuL;", "╛"),
  ("boxuR;", "╘"),
  ("boxul;", "┘"),
  ("boxur;", "└"),
  ("boxv;", "│"),
  ("boxvH;", "╪"),
  ("boxvL;", "╡"),
  ("boxvR;", "╞"),
  ("boxvh;", "┼")
]
def entityChunk4 : List (String × String) := [
  ("boxvl;", "┤"),
  ("boxvr;", "├"),
  ("bprime;", "‵"),
  ("breve;", "˘"),
  ("brvbar", "¦"),
  ("brvbar;", "¦"),
  ("bscr;", "𝒷"),
  ("bsemi;", "⁏"),
  ("bsim;", "∽"),
  ("bsime;", "⋍"),
  ("bsol;", "\\"),
  ("bsolb;", "⧅"),
  ("bsolhsub;", "⟈"),
  ("bull;", "•"),
  ("bullet;", "•"),
  ("bump;", "≎"),
  ("bumpE;", "⪮"),
  ("bumpe;", "≏"),
  ("bumpeq;", "≏"),
  ("cacute;", "ć"),
  ("cap;", "∩"),
  ("capand;", "⩄"),
  ("capbrcup;", "⩉"),
  ("capcap;", "⩋"),
  ("capcup;", "⩇"),
  ("capdot;", "⩀"),
  ("caps;", "∩︀"),
  ("caret;", "⁁"),
  ("caron;", "ˇ"),
  ("ccaps;", "⩍"),
  ("ccaron;", "č"),
  ("ccedil", "ç"),
  ("ccedil;", "ç"),
  ("ccirc;", "ĉ"),
  ("ccups;", "⩌"),
  ("ccupssm;", "⩐"),
  ("cdot;", "ċ"),
  ("cedil", "¸"),
  ("cedil;", "¸"),
  ("cemptyv;", "⦲"),
  ("cent", "¢"),
  ("cent;", "¢"),
  ("centerdot;", "·"),
  ("cfr;", "𝔠"),
  ("chcy;", "ч"),
  ("check;", "✓"),
  ("checkmark;", "✓"),
  ("chi;", "χ"),
  ("cir;", "○"),
  ("cirE;", "⧃"),
  ("circ;", "ˆ"),
  ("circeq;", "≗"),
  ("circlearrowleft;", "↺"),
  ("circlearrowright;", "↻"),
  ("circledR;", "®"),
  ("circledS;", "Ⓢ"),
  ("circledast;", "⊛"),
  ("circledcirc;", "⊚"),
  ("circleddash;", "⊝"),
  ("cire;", "≗"),
  ("cirfnint;", "⨐"),
  ("cirmid;", "⫯"),
  ("cirscir;", "⧂"),
  ("clubs;", "♣"),
  ("clubsuit;", "♣"),
  ("colon;", ":"),
  ("colone;", "≔"),
  ("coloneq;", "≔"),
  ("comma;", ","),
  ("commat;", "@"),
  ("comp;", "∁"),
  ("compfn;", "∘"),
  ("complement;", "∁"),
  ("complexes;", "ℂ"),
  ("cong;", "≅"),
  ("congdot;", "⩭"),
  ("conint;", "∮"),
  ("copf;", "𝕔"),
  ("coprod;", "∐"),
  ("copy", "©"),
  ("copy;", "©"),
  ("copysr;", "℗"),
  ("crarr;", "↵"),
  ("cross;", "✗"),
  ("cscr;", "𝒸"),
  ("csub;", "⫏"),
  ("csube;", "⫑"),
  ("csup;", "⫐"),
  ("csupe;", "⫒"),
  ("ctdot;", "⋯"),
  ("cudarrl;", "⤸"),
  ("cudarrr;", "⤵"),
  ("cuepr;", "⋞"),
  ("cuesc;", "⋟"),
  ("cularr;", "↶"),
  ("cularrp;", "⤽"),
  ("cup;", "∪"),
  ("cupbrcap;", "⩈"),
  ("cupcap;", "⩆"),
  ("cupcup;", "⩊"),
  ("cupdot;", "⊍"),
  ("cupor;", "⩅"),
  ("cups;", "∪︀"),
  ("curarr;", "↷"),
  ("curarrm;", "⤼"),
  ("curlyeqprec;", "⋞"),
  ("curlyeqsucc;", "⋟"),
  ("curlyvee;", "⋎"),
  ("curlywedge;", "⋏"),
  ("curren", "¤"),
  ("curren;", "¤"),
  ("curvearrowleft;", "↶"),
  ("curvearrowright;", "↷"),
  ("cuvee;", "⋎"),
  ("cuwed;", "⋏"),
  ("cwconint;", "∲"),
  ("cwint;", "∱"),
  ("cylcty;", "⌭"),
  ("dArr;", "⇓"),
  ("dHar;", "⥥"),
  ("dagger;", "†"),
  ("daleth;", "ℸ"),
  ("darr;", "↓"),
  ("dash;", "‐"),
  ("dashv;", "⊣"),
  ("dbkarow;", "⤏"),
  ("dblac;", "˝"),
  ("dcaron;", "ď"),
  ("dcy;", "д"),
  ("dd;", "ⅆ"),
  ("ddagger;", "‡"),
  ("ddarr;", "⇊"),
  ("ddotseq;", "⩷"),
  ("deg", "°"),
  ("deg;", "°"),
  ("delta;", "δ"),
  ("demptyv;", "⦱"),
  ("dfisht;", "⥿"),
  ("dfr;", "𝔡"),
  ("dharl;", "⇃"),
  ("dharr;", "⇂"),
  ("diam;", "⋄"),
  ("diamond;", "⋄"),
  ("diamondsuit;", "♦"),
  ("diams;", "♦"),
  ("die;", "¨"),
  ("digamma;", "ϝ"),
  ("disin;", "⋲"),
  ("div;", "÷"),
  ("divide", "÷"),
  ("divide;", "÷"),
  ("divideontimes;", "⋇"),
  ("divonx;", "⋇"),
  ("djcy;", "ђ"),
  ("dlcorn;", "⌞"),
  ("dlcrop;", "⌍"),
  ("dollar;", "$"),
  ("dopf;", "𝕕"),
  ("dot;", "˙"),
  ("doteq;", "≐"),
  ("doteqdot;", "≑"),
  ("dotminus;", "∸"),
  ("dotplus;", "∔"),
  ("dotsquare;", "⊡"),
  ("doublebarwedge;", "⌆"),
  ("downarrow;", "↓"),
  ("downdownarrows;", "⇊"),
  ("downharpoonleft;", "⇃"),
  ("downharpoonright;", "⇂"),
  ("drbkarow;", "⤐"),
  ("drcorn;", "⌟"),
  ("drcrop;", "⌌"),
  ("dscr;", "𝒹"),
  ("dscy;", "ѕ"),
  ("dsol;", "⧶"),
  ("dstrok;", "đ"),
  ("dtdot;", "⋱"),
  ("dtri;", "▿"),
  ("dtrif;", "▾"),
  ("duarr;", "⇵"),
  ("duhar;", "⥯"),
  ("dwangle;", "⦦"),
  ("dzcy;", "џ"),
  ("dzigrarr;", "⟿"),
  ("eDDot;", "⩷"),
  ("eDot;", "≑"),
  ("eacute", "é"),
  ("eacute;", "é"),
  ("easter;", "⩮"),
  ("ecaron;", "ě"),
  ("ecir;", "≖"),
  ("ecirc", "ê"),
  ("ecirc;", "ê"),
  ("ecolon;", "≕"),
  ("ecy;", "э"),
  ("edot;", "ė"),
  ("ee;", "ⅇ"),
  ("efDot;", "≒"),
  ("efr;", "𝔢"),
  ("eg;", "⪚")
]
def entityChunk5 : List (String × String) := [
  ("egrave", "è"),
  ("egrave;", "è"),
  ("egs;", "⪖"),
  ("egsdot;", "⪘"),
  ("el;", "⪙"),
  ("elinters;", "⏧"),
  ("ell;", "ℓ"),
  ("els;", "⪕"),
  ("elsdot;", "⪗"),
  ("emacr;", "ē"),
  ("empty;", "∅"),
  ("emptyset;", "∅"),
  ("emptyv;", "∅"),
  ("emsp13;", " "),
  ("emsp14;", " "),
  ("emsp;", " "),
  ("eng;", "ŋ"),
  ("ensp;", " "),
  ("eogon;", "ę"),
  ("eopf;", "𝕖"),
  ("epar;", "⋕"),
  ("eparsl;", "⧣"),
  ("eplus;", "⩱"),
  ("epsi;", "ε"),
  ("epsilon;", "ε"),
  ("epsiv;", "ϵ"),
  ("eqcirc;", "≖"),
  ("eqcolon;", "≕"),
  ("eqsim;", "≂"),
  ("eqslantgtr;", "⪖"),
  ("eqslantless;", "⪕"),
  ("equals;", "="),
  ("equest;", "≟"),
  ("equiv;", "≡"),
  ("equivDD;", "⩸"),
  ("eqvparsl;", "⧥"),
  ("erDot;", "≓"),
  ("erarr;", "⥱"),
  ("escr;", "ℯ"),
  ("esdot;", "≐"),
  ("esim;", "≂"),
  ("eta;", "η"),
  ("eth", "ð"),
  ("eth;", "ð"),
  ("euml", "ë"),
  ("euml;", "ë"),
  ("euro;", "€"),
  ("excl;", "!"),
  ("exist;", "∃"),
  ("expectation;", "ℰ"),
  ("exponentiale;", "ⅇ"),
  ("fallingdotseq;", "≒"),
  ("fcy;", "ф"),
  ("female;", "♀"),
  ("ffilig;", "ﬃ"),
  ("fflig;", "ﬀ"),
  ("ffllig;", "ﬄ"),
  ("ffr;", "𝔣"),
  ("filig;", "ﬁ"),
  ("fjlig;", "fj"),
  ("flat;", "♭"),
  ("fllig;", "ﬂ"),
  ("fltns;", "▱"),
  ("fnof;", "ƒ"),
  ("fopf;", "𝕗"),
  ("forall;", "∀"),
  ("fork;", "⋔"),
  ("forkv;", "⫙"),
  ("fpartint;", "⨍"),
  ("frac12", "½"),
  ("frac12;", "½"),
  ("frac13;", "⅓"),
  ("frac14", "¼"),
  ("frac14;", "¼"),
  ("frac15;", "⅕"),
  ("frac16;", "⅙"),
  ("frac18;", "⅛"),
  ("frac23;", "⅔"),
  ("frac25;", "⅖"),
  ("frac34", "¾"),
  ("frac34;", "¾"),
  ("frac35;", "⅗"),
  ("frac38;", "⅜"),
  ("frac45;", "⅘"),
  ("frac56;", "⅚"),
  ("frac58;", "⅝"),
  ("frac78;", "⅞"),
  ("frasl;", "⁄"),
  ("frown;", "⌢"),
  ("fscr;", "𝒻"),
  ("gE;", "≧"),
  ("gEl;", "⪌"),
  ("gacute;", "ǵ"),
  ("gamma;", "γ"),
  ("gammad;", "ϝ"),
  ("gap;", "⪆"),
  ("gbreve;", "ğ"),
  ("gcirc;", "ĝ"),
  ("gcy;", "г"),
  ("gdot;", "ġ"),
  ("ge;", "≥"),
  ("gel;", "⋛"),
  ("geq;", "≥"),
  ("geqq;", "≧"),
  ("geqslant;", "⩾"),
  ("ges;", "⩾"),
  ("gescc;", "⪩"),
  ("gesdot;", "⪀"),
  ("gesdoto;", "⪂"),
  ("gesdotol;", "⪄"),
  ("gesl;", "⋛︀"),
  ("gesles;", "⪔"),
  ("gfr;", "𝔤"),
  ("gg;", "≫"),
  ("ggg;", "⋙"),
  ("gimel;", "ℷ"),
  ("gjcy;", "ѓ"),
  ("gl;", "≷"),
  ("glE;", "⪒"),
  ("gla;", "⪥"),
  ("glj;", "⪤"),
  ("gnE;", "≩"),
  ("gnap;", "⪊"),
  ("gnapprox;", "⪊"),
  ("gne;", "⪈"),
  ("gneq;", "⪈"),
  ("gneqq;", "≩"),
  ("gnsim;", "⋧"),
  ("gopf;", "𝕘"),
  ("grave;", "\x60"),
  ("gscr;", "ℊ"),
  ("gsim;", "≳"),
  ("gsime;", "⪎"),
  ("gsiml;", "⪐"),
  ("gt", ">"),
  ("gt;", ">"),
  ("gtcc;", "⪧"),
  ("gtcir;", "⩺"),
  ("gtdot;", "⋗"),
  ("gtlPar;", "⦕"),
  ("gtquest;", "⩼"),
  ("gtrapprox;", "⪆"),
  ("gtrarr;", "⥸"),
  ("gtrdot;", "⋗"),
  ("gtreqless;", "⋛"),
  ("gtreqqless;", "⪌"),
  ("gtrless;", "≷"),
  ("gtrsim;", "≳"),
  ("gvertneqq;", "≩︀"),
  ("gvnE;", "≩︀"),
  ("hArr;", "⇔"),
  ("hairsp;", " "),
  ("half;", "½"),
  ("hamilt;", "ℋ"),
  ("hardcy;", "ъ"),
  ("harr;", "↔"),
  ("harrcir;", "⥈"),
  ("harrw;", "↭"),
  ("hbar;", "ℏ"),
  ("hcirc;", "ĥ"),
  ("hearts;", "♥"),
  ("heartsuit;", "♥"),
  ("hellip;", "…"),
  ("hercon;", "⊹"),
  ("hfr;", "𝔥"),
  ("hksearow;", "⤥"),
  ("hkswarow;", "⤦"),
  ("hoarr;", "⇿"),
  ("homtht;", "∻"),
  ("hookleftarrow;", "↩"),
  ("hookrightarrow;", "↪"),
  ("hopf;", "𝕙"),
  ("horbar;", "―"),
  ("hscr;", "𝒽"),
  ("hslash;", "ℏ"),
  ("hstrok;", "ħ"),
  ("hybull;", "⁃"),
  ("hyphen;", "‐"),
  ("iacute", "í"),
  ("iacute;", "í"),
  ("ic;", "⁣"),
  ("icirc", "î"),
  ("icirc;", "î"),
  ("icy;", "и"),
  ("iecy;", "е"),
  ("iexcl", "¡"),
  ("iexcl;", "¡"),
  ("iff;", "⇔"),
  ("ifr;", "𝔦"),
  ("igrave", "ì"),
  ("igrave;", "ì"),
  ("ii;", "ⅈ"),
  ("iiiint;", "⨌"),
  ("iiint;", "∭"),
  ("iinfin;", "⧜"),
  ("iiota;", "℩"),
  ("ijlig;", "ĳ"),
  ("imacr;", "ī"),
  ("image;", "ℑ"),
  ("imagline;", "ℐ")
]
def entityChunk6 : List (String × String) := [
  ("imagpart;", "ℑ"),
  ("imath;", "ı"),
  ("imof;", "⊷"),
  ("imped;", "Ƶ"),
  ("in;", "∈"),
  ("incare;", "℅"),
  ("infin;", "∞"),
  ("infintie;", "⧝"),
  ("inodot;", "ı"),
  ("int;", "∫"),
  ("intcal;", "⊺"),
  ("integers;", "ℤ"),
  ("intercal;", "⊺"),
  ("intlarhk;", "⨗"),
  ("intprod;", "⨼"),
  ("iocy;", "ё"),
  ("iogon;", "į"),
  ("iopf;", "𝕚"),
  ("iota;", "ι"),
  ("iprod;", "⨼"),
  ("iquest", "¿"),
  ("iquest;", "¿"),
  ("iscr;", "𝒾"),
  ("isin;", "∈"),
  ("isinE;", "⋹"),
  ("isindot;", "⋵"),
  ("isins;", "⋴"),
  ("isinsv;", "⋳"),
  ("isinv;", "∈"),
  ("it;", "⁢"),
  ("itilde;", "ĩ"),
  ("iukcy;", "і"),
  ("iuml", "ï"),
  ("iuml;", "ï"),
  ("jcirc;", "ĵ"),
  ("jcy;", "й"),
  ("jfr;", "𝔧"),
  ("jmath;", "ȷ"),
  ("jopf;", "𝕛"),
  ("jscr;", "𝒿"),
  ("jsercy;", "ј"),
  ("jukcy;", "є"),
  ("kappa;", "κ"),
  ("kappav;", "ϰ"),
  ("kcedil;", "ķ"),
  ("kcy;", "к"),
  ("kfr;", "𝔨"),
  ("kgreen;", "ĸ"),
  ("khcy;", "х"),
  ("kjcy;", "ќ"),
  ("kopf;", "𝕜"),
  ("kscr;", "𝓀"),
  ("lAarr;", "⇚"),
  ("lArr;", "⇐"),
  ("lAtail;", "⤛"),
  ("lBarr;", "⤎"),
  ("lE;", "≦"),
  ("lEg;", "⪋"),
  ("lHar;", "⥢"),
  ("lacute;", "ĺ"),
  ("laemptyv;", "⦴"),
  ("lagran;", "ℒ"),
  ("lambda;", "λ"),
  ("lang;", "⟨"),
  ("langd;", "⦑"),
  ("langle;", "⟨"),
  ("lap;", "⪅"),
  ("laquo", "«"),
  ("laquo;", "«"),
  ("larr;", "←"),
  ("larrb;", "⇤"),
  ("larrbfs;", "⤟"),
  ("larrfs;", "⤝"),
  ("larrhk;", "↩"),
  ("larrlp;", "↫"),
  ("larrpl;", "⤹"),
  ("larrsim;", "⥳"),
  ("larrtl;", "↢"),
  ("lat;", "⪫"),
  ("latail;", "⤙"),
  ("late;", "⪭"),
  ("lates;", "⪭︀"),
  ("lbarr;", "⤌"),
  ("lbbrk;", "❲"),
  ("lbrace;", "\x7b"),
  ("lbrack;", "["),
  ("lbrke;", "⦋"),
  ("lbrksld;", "⦏"),
  ("lbrkslu;", "⦍"),
  ("lcaron;", "ľ"),
  ("lcedil;", "ļ"),
  ("lceil;", "⌈"),
  ("lcub;", "\x7b"),
  ("lcy;", "л"),
  ("ldca;", "⤶"),
  ("ldquo;", "“"),
  ("ldquor;", "„"),
  ("ldrdhar;", "⥧"),
  ("ldrushar;", "⥋"),
  ("ldsh;", "↲"),
  ("le;", "≤"),
  ("leftarrow;", "←"),
  ("leftarrowtail;", "↢"),
  ("leftharpoondown;", "↽"),
  ("leftharpoonup;", "↼"),
  ("leftleftarrows;", "⇇"),
  ("leftrightarrow;", "↔"),
  ("leftrightarrows;", "⇆"),
  ("leftrightharpoons;", "⇋"),
  ("leftrightsquigarrow;", "↭"),
  ("leftthreetimes;", "⋋"),
  ("leg;", "⋚"),
  ("leq;", "≤"),
  ("leqq;", "≦"),
  ("leqslant;", "⩽"),
  ("les;", "⩽"),
  ("lescc;", "⪨"),
  ("lesdot;", "⩿"),
  ("lesdoto;", "⪁"),
  ("lesdotor;", "⪃"),
  ("lesg;", "⋚︀"),
  ("lesges;", "⪓"),
  ("lessapprox;", "⪅"),
  ("lessdot;", "⋖"),
  ("lesseqgtr;", "⋚"),
  ("lesseqqgtr;", "⪋"),
  ("lessgtr;", "≶"),
  ("lesssim;", "≲"),
  ("lfisht;", "⥼"),
  ("lfloor;", "⌊"),
  ("lfr;", "𝔩"),
  ("lg;", "≶"),
  ("lgE;", "⪑"),
  ("lhard;", "↽"),
  ("lharu;", "↼"),
  ("lharul;", "⥪"),
  ("lhblk;", "▄"),
  ("ljcy;", "љ"),
  ("ll;", "≪"),
  ("llarr;", "⇇"),
  ("llcorner;", "⌞"),
  ("llhard;", "⥫"),
  ("lltri;", "◺"),
  ("lmidot;", "ŀ"),
  ("lmoust;", "⎰"),
  ("lmoustache;", "⎰"),
  ("lnE;", "≨"),
  ("lnap;", "⪉"),
  ("lnapprox;", "⪉"),
  ("lne;", "⪇"),
  ("lneq;", "⪇"),
  ("lneqq;", "≨"),
  ("lnsim;", "⋦"),
  ("loang;", "⟬"),
  ("loarr;", "⇽"),
  ("lobrk;", "⟦"),
  ("longleftarrow;", "⟵"),
  ("longleftrightarrow;", "⟷"),
  ("longmapsto;", "⟼"),
  ("longrightarrow;", "⟶"),
  ("looparrowleft;", "↫"),
  ("looparrowright;", "↬"),
  ("lopar;", "⦅"),
  ("lopf;", "𝕝"),
  ("loplus;", "⨭"),
  ("lotimes;", "⨴"),
  ("lowast;", "∗"),
  ("lowbar;", "_"),
  ("loz;", "◊"),
  ("lozenge;", "◊"),
  ("lozf;", "⧫"),
  ("lpar;", "("),
  ("lparlt;", "⦓"),
  ("lrarr;", "⇆"),
  ("lrcorner;", "⌟"),
  ("lrhar;", "⇋"),
  ("lrhard;", "⥭"),
  ("lrm;", "‎"),
  ("lrtri;", "⊿"),
  ("lsaquo;", "‹"),
  ("lscr;", "𝓁"),
  ("lsh;", "↰"),
  ("lsim;", "≲"),
  ("lsime;", "⪍"),
  ("lsimg;", "⪏"),
  ("lsqb;", "["),
  ("lsquo;", "‘"),
  ("lsquor;", "‚"),
  ("lstrok;", "ł"),
  ("lt", "<"),
  ("lt;", "<"),
  ("ltcc;", "⪦"),
  ("ltcir;", "⩹"),
  ("ltdot;", "⋖"),
  ("lthree;", "⋋"),
  ("ltimes;", "⋉"),
  ("ltlarr;", "⥶"),
  ("ltquest;", "⩻"),
  ("ltrPar;", "⦖"),
  ("ltri;", "◃")
]
def entityChunk7 : List (String × String) := [
  ("ltrie;", "⊴"),
  ("ltrif;", "◂"),
  ("lurdshar;", "⥊"),
  ("luruhar;", "⥦"),
  ("lvertneqq;", "≨︀"),
  ("lvnE;", "≨︀"),
  ("mDDot;", "∺"),
  ("macr", "¯"),
  ("macr;", "¯"),
  ("male;", "♂"),
  ("malt;", "✠"),
  ("maltese;", "✠"),
  ("map;", "↦"),
  ("mapsto;", "↦"),
  ("mapstodown;", "↧"),
  ("mapstoleft;", "↤"),
  ("mapstoup;", "↥"),
  ("marker;", "▮"),
  ("mcomma;", "⨩"),
  ("mcy;", "м"),
  ("mdash;", "—"),
  ("measuredangle;", "∡"),
  ("mfr;", "𝔪"),
  ("mho;", "℧"),
  ("micro", "µ"),
  ("micro;", "µ"),
  ("mid;", "∣"),
  ("midast;", "*"),
  ("midcir;", "⫰"),
  ("middot", "·"),
  ("middot;", "·"),
  ("minus;", "−"),
  ("minusb;", "⊟"),
  ("minusd;", "∸"),
  ("minusdu;", "⨪"),
  ("mlcp;", "⫛"),
  ("mldr;", "…"),
  ("mnplus;", "∓"),
  ("models;", "⊧"),
  ("mopf;", "𝕞"),
  ("mp;", "∓"),
  ("mscr;", "𝓂"),
  ("mstpos;", "∾"),
  ("mu;", "μ"),
  ("multimap;", "⊸"),
  ("mumap;", "⊸"),
  ("nGg;", "⋙̸"),
  ("nGt;", "≫⃒"),
  ("nGtv;", "≫̸"),
  ("nLeftarrow;", "⇍"),
  ("nLeftrightarrow;", "⇎"),
  ("nLl;", "⋘̸"),
  ("nLt;", "≪⃒"),
  ("nLtv;", "≪̸"),
  ("nRightarrow;", "⇏"),
  ("nVDash;", "⊯"),
  ("nVdash;", "⊮"),
  ("nabla;", "∇"),
  ("nacute;", "ń"),
  ("nang;", "∠⃒"),
  ("nap;", "≉"),
  ("napE;", "⩰̸"),
  ("napid;", "≋̸"),
  ("napos;", "ŉ"),
  ("napprox;", "≉"),
  ("natur;", "♮"),
  ("natural;", "♮"),
  ("naturals;", "ℕ"),
  ("nbsp", " "),
  ("nbsp;", " "),
  ("nbump;", "≎̸"),
  ("nbumpe;", "≏̸"),
  ("ncap;", "⩃"),
  ("ncaron;", "ň"),
  ("ncedil;", "ņ"),
  ("ncong;", "≇"),
  ("ncongdot;", "⩭̸"),
  ("ncup;", "⩂"),
  ("ncy;", "н"),
  ("ndash;", "–"),
  ("ne;", "≠"),
  ("neArr;", "⇗"),
  ("nearhk;", "⤤"),
  ("nearr;", "↗"),
  ("nearrow;", "↗"),
  ("nedot;", "≐̸"),
  ("nequiv;", "≢"),
  ("nesear;", "⤨"),
  ("nesim;", "≂̸"),
  ("nexist;", "∄"),
  ("nexists;", "∄"),
  ("nfr;", "𝔫"),
  ("ngE;", "≧̸"),
  ("nge;", "≱"),
  ("ngeq;", "≱"),
  ("ngeqq;", "≧̸"),
  ("ngeqslant;", "⩾̸"),
  ("nges;", "⩾̸"),
  ("ngsim;", "≵"),
  ("ngt;", "≯"),
  ("ngtr;", "≯"),
  ("nhArr;", "⇎"),
  ("nharr;", "↮"),
  ("nhpar;", "⫲"),
  ("ni;", "∋"),
  ("nis;", "⋼"),
  ("nisd;", "⋺"),
  ("niv;", "∋"),
  ("njcy;", "њ"),
  ("nlArr;", "⇍"),
  ("nlE;", "≦̸"),
  ("nlarr;", "↚"),
  ("nldr;", "‥"),
  ("nle;", "≰"),
  ("nleftarrow;", "↚"),
  ("nleftrightarrow;", "↮"),
  ("nleq;", "≰"),
  ("nleqq;", "≦̸"),
  ("nleqslant;", "⩽̸"),
  ("nles;", "⩽̸"),
  ("nless;", "≮"),
  ("nlsim;", "≴"),
  ("nlt;", "≮"),
  ("nltri;", "⋪"),
  ("nltrie;", "⋬"),
  ("nmid;", "∤"),
  ("nopf;", "𝕟"),
  ("not", "¬"),
  ("not;", "¬"),
  ("notin;", "∉"),
  ("notinE;", "⋹̸"),
  ("notindot;", "⋵̸"),
  ("notinva;", "∉"),
  ("notinvb;", "⋷"),
  ("notinvc;", "⋶"),
  ("notni;", "∌"),
  ("notniva;", "∌"),
  ("notnivb;", "⋾"),
  ("notnivc;", "⋽"),
  ("npar;", "∦"),
  ("nparallel;", "∦"),
  ("nparsl;", "⫽⃥"),
  ("npart;", "∂̸"),
  ("npolint;", "⨔"),
  ("npr;", "⊀"),
  ("nprcue;", "⋠"),
  ("npre;", "⪯̸"),
  ("nprec;", "⊀"),
  ("npreceq;", "⪯̸"),
  ("nrArr;", "⇏"),
  ("nrarr;", "↛"),
  ("nrarrc;", "⤳̸"),
  ("nrarrw;", "↝̸"),
  ("nrightarrow;", "↛"),
  ("nrtri;", "⋫"),
  ("nrtrie;", "⋭"),
  ("nsc;", "⊁"),
  ("nsccue;", "⋡"),
  ("nsce;", "⪰̸"),
  ("nscr;", "𝓃"),
  ("nshortmid;", "∤"),
  ("nshortparallel;", "∦"),
  ("nsim;", "≁"),
  ("nsime;", "≄"),
  ("nsimeq;", "≄"),
  ("nsmid;", "∤"),
  ("nspar;", "∦"),
  ("nsqsube;", "⋢"),
  ("nsqsupe;", "⋣"),
  ("nsub;", "⊄"),
  ("nsubE;", "⫅̸"),
  ("nsube;", "⊈"),
  ("nsubset;", "⊂⃒"),
  ("nsubseteq;", "⊈"),
  ("nsubseteqq;", "⫅̸"),
  ("nsucc;", "⊁"),
  ("nsucceq;", "⪰̸"),
  ("nsup;", "⊅"),
  ("nsupE;", "⫆̸"),
  ("nsupe;", "⊉"),
  ("nsupset;", "⊃⃒"),
  ("nsupseteq;", "⊉"),
  ("nsupseteqq;", "⫆̸"),
  ("ntgl;", "≹"),
  ("ntilde", "ñ"),
  ("ntilde;", "ñ"),
  ("ntlg;", "≸"),
  ("ntriangleleft;", "⋪"),
  ("ntrianglelefteq;", "⋬"),
  ("ntriangleright;", "⋫"),
  ("ntrianglerighteq;", "⋭"),
  ("nu;", "ν"),
  ("num;", "#"),
  ("numero;", "№"),
  ("numsp;", " "),
  ("nvDash;", "⊭"),
  ("nvHarr;", "⤄"),
  ("nvap;", "≍⃒"),
  ("nvdash;", "⊬"),
  ("nvge;", "≥⃒")
]
def entityChunk8 : List (String × String) := [
  ("nvgt;", ">⃒"),
  ("nvinfin;", "⧞"),
  ("nvlArr;", "⤂"),
  ("nvle;", "≤⃒"),
  ("nvlt;", "<⃒"),
  ("nvltrie;", "⊴⃒"),
  ("nvrArr;", "⤃"),
  ("nvrtrie;", "⊵⃒"),
  ("nvsim;", "∼⃒"),
  ("nwArr;", "⇖"),
  ("nwarhk;", "⤣"),
  ("nwarr;", "↖"),
  ("nwarrow;", "↖"),
  ("nwnear;", "⤧"),
  ("oS;", "Ⓢ"),
  ("oacute", "ó"),
  ("oacute;", "ó"),
  ("oast;", "⊛"),
  ("ocir;", "⊚"),
  ("ocirc", "ô"),
  ("ocirc;", "ô"),
  ("ocy;", "о"),
  ("odash;", "⊝"),
  ("odblac;", "ő"),
  ("odiv;", "⨸"),
  ("odot;", "⊙"),
  ("odsold;", "⦼"),
  ("oelig;", "œ"),
  ("ofcir;", "⦿"),
  ("ofr;", "𝔬"),
  ("ogon;", "˛"),
  ("ograve", "ò"),
  ("ograve;", "ò"),
  ("ogt;", "⧁"),
  ("ohbar;", "⦵"),
  ("ohm;", "Ω"),
  ("oint;", "∮"),
  ("olarr;", "↺"),
  ("olcir;", "⦾"),
  ("olcross;", "⦻"),
  ("oline;", "‾"),
  ("olt;", "⧀"),
  ("omacr;", "ō"),
  ("omega;", "ω"),
  ("omicron;", "ο"),
  ("omid;", "⦶"),
  ("ominus;", "⊖"),
  ("oopf;", "𝕠"),
  ("opar;", "⦷"),
  ("operp;", "⦹"),
  ("oplus;", "⊕"),
  ("or;", "∨"),
  ("orarr;", "↻"),
  ("ord;", "⩝"),
  ("order;", "ℴ"),
  ("orderof;", "ℴ"),
  ("ordf", "ª"),
  ("ordf;", "ª"),
  ("ordm", "º"),
  ("ordm;", "º"),
  ("origof;", "⊶"),
  ("oror;", "⩖"),
  ("orslope;", "⩗"),
  ("orv;", "⩛"),
  ("oscr;", "ℴ"),
  ("oslash", "ø"),
  ("oslash;", "ø"),
  ("osol;", "⊘"),
  ("otilde", "õ"),
  ("otilde;", "õ"),
  ("otimes;", "⊗"),
  ("otimesas;", "⨶"),
  ("ouml", "ö"),
  ("ouml;", "ö"),
  ("ovbar;", "⌽"),
  ("par;", "∥"),
  ("para", "¶"),
  ("para;", "¶"),
  ("parallel;", "∥"),
  ("parsim;", "⫳"),
  ("parsl;", "⫽"),
  ("part;", "∂"),
  ("pcy;", "п"),
  ("percnt;", "%"),
  ("period;", "."),
  ("permil;", "‰"),
  ("perp;", "⊥"),
  ("pertenk;", "‱"),
  ("pfr;", "𝔭"),
  ("phi;", "φ"),
  ("phiv;", "ϕ"),
  ("phmmat;", "ℳ"),
  ("phone;", "☎"),
  ("pi;", "π"),
  ("pitchfork;", "⋔"),
  ("piv;", "ϖ"),
  ("planck;", "ℏ"),
  ("planckh;", "ℎ"),
  ("plankv;", "ℏ"),
  ("plus;", "+"),
  ("plusacir;", "⨣"),
  ("plusb;", "⊞"),
  ("pluscir;", "⨢"),
  ("plusdo;", "∔"),
  ("plusdu;", "⨥"),
  ("pluse;", "⩲"),
  ("plusmn", "±"),
  ("plusmn;", "±"),
  ("plussim;", "⨦"),
  ("plustwo;", "⨧"),
  ("pm;", "±"),
  ("pointint;", "⨕"),
  ("popf;", "𝕡"),
  ("pound", "£"),
  ("pound;", "£"),
  ("pr;", "≺"),
  ("prE;", "⪳"),
  ("prap;", "⪷"),
  ("prcue;", "≼"),
  ("pre;", "⪯"),
  ("prec;", "≺"),
  ("precapprox;", "⪷"),
  ("preccurlyeq;", "≼"),
  ("preceq;", "⪯"),
  ("precnapprox;", "⪹"),
  ("precneqq;", "⪵"),
  ("precnsim;", "⋨"),
  ("precsim;", "≾"),
  ("prime;", "′"),
  ("primes;", "ℙ"),
  ("prnE;", "⪵"),
  ("prnap;", "⪹"),
  ("prnsim;", "⋨"),
  ("prod;", "∏"),
  ("profalar;", "⌮"),
  ("profline;", "⌒"),
  ("profsurf;", "⌓"),
  ("prop;", "∝"),
  ("propto;", "∝"),
  ("prsim;", "≾"),
  ("prurel;", "⊰"),
  ("pscr;", "𝓅"),
  ("psi;", "ψ"),
  ("puncsp;", " "),
  ("qfr;", "𝔮"),
  ("qint;", "⨌"),
  ("qopf;", "𝕢"),
  ("qprime;", "⁗"),
  ("qscr;", "𝓆"),
  ("quaternions;", "ℍ"),
  ("quatint;", "⨖"),
  ("quest;", "?"),
  ("questeq;", "≟"),
  ("quot", "\""),
  ("quot;", "\""),
  ("rAarr;", "⇛"),
  ("rArr;", "⇒"),
  ("rAtail;", "⤜"),
  ("rBarr;", "⤏"),
  ("rHar;", "⥤"),
  ("race;", "∽̱"),
  ("racute;", "ŕ"),
  ("radic;", "√"),
  ("raemptyv;", "⦳"),
  ("rang;", "⟩"),
  ("rangd;", "⦒"),
  ("range;", "⦥"),
  ("rangle;", "⟩"),
  ("raquo", "»"),
  ("raquo;", "»"),
  ("rarr;", "→"),
  ("rarrap;", "⥵"),
  ("rarrb;", "⇥"),
  ("rarrbfs;", "⤠"),
  ("rarrc;", "⤳"),
  ("rarrfs;", "⤞"),
  ("rarrhk;", "↪"),
  ("rarrlp;", "↬"),
  ("rarrpl;", "⥅"),
  ("rarrsim;", "⥴"),
  ("rarrtl;", "↣"),
  ("rarrw;", "↝"),
  ("ratail;", "⤚"),
  ("ratio;", "∶"),
  ("rationals;", "ℚ"),
  ("rbarr;", "⤍"),
  ("rbbrk;", "❳"),
  ("rbrace;", "\x7d"),
  ("rbrack;", "]"),
  ("rbrke;", "⦌"),
  ("rbrksld;", "⦎"),
  ("rbrkslu;", "⦐"),
  ("rcaron;", "ř"),
  ("rcedil;", "ŗ"),
  ("rceil;", "⌉"),
  ("rcub;", "\x7d"),
  ("rcy;", "р"),
  ("rdca;", "⤷"),
  ("rdldhar;", "⥩"),
  ("rdquo;", "”")
]
def entityChunk9 : List (String × String) := [
  ("rdquor;", "”"),
  ("rdsh;", "↳"),
  ("real;", "ℜ"),
  ("realine;", "ℛ"),
  ("realpart;", "ℜ"),
  ("reals;", "ℝ"),
  ("rect;", "▭"),
  ("reg", "®"),
  ("reg;", "®"),
  ("rfisht;", "⥽"),
  ("rfloor;", "⌋"),
  ("rfr;", "𝔯"),
  ("rhard;", "⇁"),
  ("rharu;", "⇀"),
  ("rharul;", "⥬"),
  ("rho;", "ρ"),
  ("rhov;", "ϱ"),
  ("rightarrow;", "→"),
  ("rightarrowtail;", "↣"),
  ("rightharpoondown;", "⇁"),
  ("rightharpoonup;", "⇀"),
  ("rightleftarrows;", "⇄"),
  ("rightleftharpoons;", "⇌"),
  ("rightrightarrows;", "⇉"),
  ("rightsquigarrow;", "↝"),
  ("rightthreetimes;", "⋌"),
  ("ring;", "˚"),
  ("risingdotseq;", "≓"),
  ("rlarr;", "⇄"),
  ("rlhar;", "⇌"),
  ("rlm;", "‏"),
  ("rmoust;", "⎱"),
  ("rmoustache;", "⎱"),
  ("rnmid;", "⫮"),
  ("roang;", "⟭"),
  ("roarr;", "⇾"),
  ("robrk;", "⟧"),
  ("ropar;", "⦆"),
  ("ropf;", "𝕣"),
  ("roplus;", "⨮"),
  ("rotimes;", "⨵"),
  ("rpar;", ")"),
  ("rpargt;", "⦔"),
  ("rppolint;", "⨒"),
  ("rrarr;", "⇉"),
  ("rsaquo;", "›"),
  ("rscr;", "𝓇"),
  ("rsh;", "↱"),
  ("rsqb;", "]"),
  ("rsquo;", "’"),
  ("rsquor;", "’"),
  ("rthree;", "⋌"),
  ("rtimes;", "⋊"),
  ("rtri;", "▹"),
  ("rtrie;", "⊵"),
  ("rtrif;", "▸"),
  ("rtriltri;", "⧎"),
  ("ruluhar;", "⥨"),
  ("rx;", "℞"),
  ("sacute;", "ś"),
  ("sbquo;", "‚"),
  ("sc;", "≻"),
  ("scE;", "⪴"),
  ("scap;", "⪸"),
  ("scaron;", "š"),
  ("sccue;", "≽"),
  ("sce;", "⪰"),
  ("scedil;", "ş"),
  ("scirc;", "ŝ"),
  ("scnE;", "⪶"),
  ("scnap;", "⪺"),
  ("scnsim;", "⋩"),
  ("scpolint;", "⨓"),
  ("scsim;", "≿"),
  ("scy;", "с"),
  ("sdot;", "⋅"),
  ("sdotb;", "⊡"),
  ("sdote;", "⩦"),
  ("seArr;", "⇘"),
  ("searhk;", "⤥"),
  ("searr;", "↘"),
  ("searrow;", "↘"),
  ("sect", "§"),
  ("sect;", "§"),
  ("semi;", ";"),
  ("seswar;", "⤩"),
  ("setminus;", "∖"),
  ("setmn;", "∖"),
  ("sext;", "✶"),
  ("sfr;", "𝔰"),
  ("sfrown;", "⌢"),
  ("sharp;", "♯"),
  ("shchcy;", "щ"),
  ("shcy;", "ш"),
  ("shortmid;", "∣"),
  ("shortparallel;", "∥"),
  ("shy", "­"),
  ("shy;", "­"),
  ("sigma;", "σ"),
  ("sigmaf;", "ς"),
  ("sigmav;", "ς"),
  ("sim;", "∼"),
  ("simdot;", "⩪"),
  ("sime;", "≃"),
  ("simeq;", "≃"),
  ("simg;", "⪞"),
  ("simgE;", "⪠"),
  ("siml;", "⪝"),
  ("simlE;", "⪟"),
  ("simne;", "≆"),
  ("simplus;", "⨤"),
  ("simrarr;", "⥲"),
  ("slarr;", "←"),
  ("smallsetminus;", "∖"),
  ("smashp;", "⨳"),
  ("smeparsl;", "⧤"),
  ("smid;", "∣"),
  ("smile;", "⌣"),
  ("smt;", "⪪"),
  ("smte;", "⪬"),
  ("smtes;", "⪬︀"),
  ("softcy;", "ь"),
  ("sol;", "/"),
  ("solb;", "⧄"),
  ("solbar;", "⌿"),
  ("sopf;", "𝕤"),
  ("spades;", "♠"),
  ("spadesuit;", "♠"),
  ("spar;", "∥"),
  ("sqcap;", "⊓"),
  ("sqcaps;", "⊓︀"),
  ("sqcup;", "⊔"),
  ("sqcups;", "⊔︀"),
  ("sqsub;", "⊏"),
  ("sqsube;", "⊑"),
  ("sqsubset;", "⊏"),
  ("sqsubseteq;", "⊑"),
  ("sqsup;", "⊐"),
  ("sqsupe;", "⊒"),
  ("sqsupset;", "⊐"),
  ("sqsupseteq;", "⊒"),
  ("squ;", "□"),
  ("square;", "□"),
  ("squarf;", "▪"),
  ("squf;", "▪"),
  ("srarr;", "→"),
  ("sscr;", "𝓈"),
  ("ssetmn;", "∖"),
  ("ssmile;", "⌣"),
  ("sstarf;", "⋆"),
  ("star;", "☆"),
  ("starf;", "★"),
  ("straightepsilon;", "ϵ"),
  ("straightphi;", "ϕ"),
  ("strns;", "¯"),
  ("sub;", "⊂"),
  ("subE;", "⫅"),
  ("subdot;", "⪽"),
  ("sube;", "⊆"),
  ("subedot;", "⫃"),
  ("submult;", "⫁"),
  ("subnE;", "⫋"),
  ("subne;", "⊊"),
  ("subplus;", "⪿"),
  ("subrarr;", "⥹"),
  ("subset;", "⊂"),
  ("subseteq;", "⊆"),
  ("subseteqq;", "⫅"),
  ("subsetneq;", "⊊"),
  ("subsetneqq;", "⫋"),
  ("subsim;", "⫇"),
  ("subsub;", "⫕"),
  ("subsup;", "⫓"),
  ("succ;", "≻"),
  ("succapprox;", "⪸"),
  ("succcurlyeq;", "≽"),
  ("succeq;", "⪰"),
  ("succnapprox;", "⪺"),
  ("succneqq;", "⪶"),
  ("succnsim;", "⋩"),
  ("succsim;", "≿"),
  ("sum;", "∑"),
  ("sung;", "♪"),
  ("sup1", "¹"),
  ("sup1;", "¹"),
  ("sup2", "²"),
  ("sup2;", "²"),
  ("sup3", "³"),
  ("sup3;", "³"),
  ("sup;", "⊃"),
  ("supE;", "⫆"),
  ("supdot;", "⪾"),
  ("supdsub;", "⫘"),
  ("supe;", "⊇"),
  ("supedot;", "⫄"),
  ("suphsol;", "⟉"),
  ("suphsub;", "⫗"),
  ("suplarr;", "⥻"),
  ("supmult;", "⫂"),
  ("supnE;", "⫌")
]
def entityChunk10 : List (String × String) := [
  ("supne;", "⊋"),
  ("supplus;", "⫀"),
  ("supset;", "⊃"),
  ("supseteq;", "⊇"),
  ("supseteqq;", "⫆"),
  ("supsetneq;", "⊋"),
  ("supsetneqq;", "⫌"),
  ("supsim;", "⫈"),
  ("supsub;", "⫔"),
  ("supsup;", "⫖"),
  ("swArr;", "⇙"),
  ("swarhk;", "⤦"),
  ("swarr;", "↙"),
  ("swarrow;", "↙"),
  ("swnwar;", "⤪"),
  ("szlig", "ß"),
  ("szlig;", "ß"),
  ("target;", "⌖"),
  ("tau;", "τ"),
  ("tbrk;", "⎴"),
  ("tcaron;", "ť"),
  ("tcedil;", "ţ"),
  ("tcy;", "т"),
  ("tdot;", "⃛"),
  ("telrec;", "⌕"),
  ("tfr;", "𝔱"),
  ("there4;", "∴"),
  ("therefore;", "∴"),
  ("theta;", "θ"),
  ("thetasym;", "ϑ"),
  ("thetav;", "ϑ"),
  ("thickapprox;", "≈"),
  ("thicksim;", "∼"),
  ("thinsp;", " "),
  ("thkap;", "≈"),
  ("thksim;", "∼"),
  ("thorn", "þ"),
  ("thorn;", "þ"),
  ("tilde;", "˜"),
  ("times", "×"),
  ("times;", "×"),
  ("timesb;", "⊠"),
  ("timesbar;", "⨱"),
  ("timesd;", "⨰"),
  ("tint;", "∭"),
  ("toea;", "⤨"),
  ("top;", "⊤"),
  ("topbot;", "⌶"),
  ("topcir;", "⫱"),
  ("topf;", "𝕥"),
  ("topfork;", "⫚"),
  ("tosa;", "⤩"),
  ("tprime;", "‴"),
  ("trade;", "™"),
  ("triangle;", "▵"),
  ("triangledown;", "▿"),
  ("triangleleft;", "◃"),
  ("trianglelefteq;", "⊴"),
  ("triangleq;", "≜"),
  ("triangleright;", "▹"),
  ("trianglerighteq;", "⊵"),
  ("tridot;", "◬"),
  ("trie;", "≜"),
  ("triminus;", "⨺"),
  ("triplus;", "⨹"),
  ("trisb;", "⧍"),
  ("tritime;", "⨻"),
  ("trpezium;", "⏢"),
  ("tscr;", "𝓉"),
  ("tscy;", "ц"),
  ("tshcy;", "ћ"),
  ("tstrok;", "ŧ"),
  ("twixt;", "≬"),
  ("twoheadleftarrow;", "↞"),
  ("twoheadrightarrow;", "↠"),
  ("uArr;", "⇑"),
  ("uHar;", "⥣"),
  ("uacute", "ú"),
  ("uacute;", "ú"),
  ("uarr;", "↑"),
  ("ubrcy;", "ў"),
  ("ubreve;", "ŭ"),
  ("ucirc", "û"),
  ("ucirc;", "û"),
  ("ucy;", "у"),
  ("udarr;", "⇅"),
  ("udblac;", "ű"),
  ("udhar;", "⥮"),
  ("ufisht;", "⥾"),
  ("ufr;", "𝔲"),
  ("ugrave", "ù"),
  ("ugrave;", "ù"),
  ("uharl;", "↿"),
  ("uharr;", "↾"),
  ("uhblk;", "▀"),
  ("ulcorn;", "⌜"),
  ("ulcorner;", "⌜"),
  ("ulcrop;", "⌏"),
  ("ultri;", "◸"),
  ("umacr;", "ū"),
  ("uml", "¨"),
  ("uml;", "¨"),
  ("uogon;", "ų"),
  ("uopf;", "𝕦"),
  ("uparrow;", "↑"),
  ("updownarrow;", "↕"),
  ("upharpoonleft;", "↿"),
  ("upharpoonright;", "↾"),
  ("uplus;", "⊎"),
  ("upsi;", "υ"),
  ("upsih;", "ϒ"),
  ("upsilon;", "υ"),
  ("upuparrows;", "⇈"),
  ("urcorn;", "⌝"),
  ("urcorner;", "⌝"),
  ("urcrop;", "⌎"),
  ("uring;", "ů"),
  ("urtri;", "◹"),
  ("uscr;", "𝓊"),
  ("utdot;", "⋰"),
  ("utilde;", "ũ"),
  ("utri;", "▵"),
  ("utrif;", "▴"),
  ("uuarr;", "⇈"),
  ("uuml", "ü"),
  ("uuml;", "ü"),
  ("uwangle;", "⦧"),
  ("vArr;", "⇕"),
  ("vBar;", "⫨"),
  ("vBarv;", "⫩"),
  ("vDash;", "⊨"),
  ("vangrt;", "⦜"),
  ("varepsilon;", "ϵ"),
  ("varkappa;", "ϰ"),
  ("varnothing;", "∅"),
  ("varphi;", "ϕ"),
  ("varpi;", "ϖ"),
  ("varpropto;", "∝"),
  ("varr;", "↕"),
  ("varrho;", "ϱ"),
  ("varsigma;", "ς"),
  ("varsubsetneq;", "⊊︀"),
  ("varsubsetneqq;", "⫋︀"),
  ("varsupsetneq;", "⊋︀"),
  ("varsupsetneqq;", "⫌︀"),
  ("vartheta;", "ϑ"),
  ("vartriangleleft;", "⊲"),
  ("vartriangleright;", "⊳"),
  ("vcy;", "в"),
  ("vdash;", "⊢"),
  ("vee;", "∨"),
  ("veebar;", "⊻"),
  ("veeeq;", "≚"),
  ("vellip;", "⋮"),
  ("verbar;", "|"),
  ("vert;", "|"),
  ("vfr;", "𝔳"),
  ("vltri;", "⊲"),
  ("vnsub;", "⊂⃒"),
  ("vnsup;", "⊃⃒"),
  ("vopf;", "𝕧"),
  ("vprop;", "∝"),
  ("vrtri;", "⊳"),
  ("vscr;", "𝓋"),
  ("vsubnE;", "⫋︀"),
  ("vsubne;", "⊊︀"),
  ("vsupnE;", "⫌︀"),
  ("vsupne;", "⊋︀"),
  ("vzigzag;", "⦚"),
  ("wcirc;", "ŵ"),
  ("wedbar;", "⩟"),
  ("wedge;", "∧"),
  ("wedgeq;", "≙"),
  ("weierp;", "℘"),
  ("wfr;", "𝔴"),
  ("wopf;", "𝕨"),
  ("wp;", "℘"),
  ("wr;", "≀"),
  ("wreath;", "≀"),
  ("wscr;", "𝓌"),
  ("xcap;", "⋂"),
  ("xcirc;", "◯"),
  ("xcup;", "⋃"),
  ("xdtri;", "▽"),
  ("xfr;", "𝔵"),
  ("xhArr;", "⟺"),
  ("xharr;", "⟷"),
  ("xi;", "ξ"),
  ("xlArr;", "⟸"),
  ("xlarr;", "⟵"),
  ("xmap;", "⟼"),
  ("xnis;", "⋻"),
  ("xodot;", "⨀"),
  ("xopf;", "𝕩"),
  ("xoplus;", "⨁"),
  ("xotime;", "⨂"),
  ("xrArr;", "⟹"),
  ("xrarr;", "⟶"),
  ("xscr;", "𝓍"),
  ("xsqcup;", "⨆")
]
def entityChunk11 : List (String × String) := [
  ("xuplus;", "⨄"),
  ("xutri;", "△"),
  ("xvee;", "⋁"),
  ("xwedge;", "⋀"),
  ("yacute", "ý"),
  ("yacute;", "ý"),
  ("yacy;", "я"),
  ("ycirc;", "ŷ"),
  ("ycy;", "ы"),
  ("yen", "¥"),
  ("yen;", "¥"),
  ("yfr;", "𝔶"),
  ("yicy;", "ї"),
  ("yopf;", "𝕪"),
  ("yscr;", "𝓎"),
  ("yucy;", "ю"),
  ("yuml", "ÿ"),
  ("yuml;", "ÿ"),
  ("zacute;", "ź"),
  ("zcaron;", "ž"),
  ("zcy;", "з"),
  ("zdot;", "ż"),
  ("zeetrf;", "ℨ"),
  ("zeta;", "ζ"),
  ("zfr;", "𝔷"),
  ("zhcy;", "ж"),
  ("zigrarr;", "⇝"),
  ("zopf;", "𝕫"),
  ("zscr;", "𝓏"),
  ("zwj;", "‍"),
  ("zwnj;", "‌")
]

def entityTable : List (String × String) :=
  entityChunk0 ++ entityChunk1 ++ entityChunk2 ++ entityChunk3 ++ entityChunk4 ++ entityChunk5 ++ entityChunk6 ++ entityChunk7 ++ entityChunk8 ++ entityChunk9 ++ entityChunk10 ++ entityChunk11

/-- `html._invalid_charrefs`: numeric references redirected to
windows-1252 or replacement characters. -/
def invalidCharrefs : List (Nat × String) := [
  (0, "�"),
  (13, "\r"),
  (128, "€"),
  (129, ""),
  (130, "‚"),
  (131, "ƒ"),
  (132, "„"),
  (133, "…"),
  (134, "†"),
  (135, "‡"),
  (136, "ˆ"),
  (137, "‰"),
  (138, "Š"),
  (139, "‹"),
  (140, "Œ"),
  (141, ""),
  (142, "Ž"),
  (143, ""),
  (144, ""),
  (145, "‘"),
  (146, "’"),
  (147, "“"),
  (148, "”"),
  (149, "•"),
  (150, "–"),
  (151, "—"),
  (152, "˜"),
  (153, "™"),
  (154, "š"),
  (155, "›"),
  (156, "œ"),
  (157, ""),
  (158, "ž"),
  (159, "Ÿ")
]

/-- `html._invalid_codepoints`: numeric references removed outright. -/
def invalidCodepoints : List Nat :=
  [1, 2, 3, 4, 5, 6, 7, 8, 11, 14, 15, 16, 17, 18, 19, 20, 21, 22, 23, 24, 25, 26, 27, 28, 29, 30, 31, 127, 128, 129, 130, 131, 132, 133, 134, 135, 136, 137, 138, 139, 140, 141, 142, 143, 144, 145, 146, 147, 148, 149, 150, 151, 152, 153, 154, 155, 156, 157, 158, 159, 64976, 64977, 64978, 64979, 64980, 64981, 64982, 64983, 64984, 64985, 64986, 64987, 64988, 64989, 64990, 64991, 64992, 64993, 64994, 64995, 64996, 64997, 64998, 64999, 65000, 65001, 65002, 65003, 65004, 65005, 65006, 65007, 65534, 65535, 131070, 131071, 196606, 196607, 262142, 262143, 327678, 327679, 393214, 393215, 458750, 458751, 524286, 524287, 589822, 589823, 655358, 655359, 720894, 720895, 786430, 786431, 851966, 851967, 917502, 917503, 983038, 983039, 1048574, 1048575, 1114110, 1114111]


def entityNameChar (c : Char) : Bool :=
  !(c == '\t' || c == '\n' || c == '\x0c' || c == ' ' || c == '<' || c == '&' || c == '#' || c == ';')

def entityLookup (s : List Char) : Option String :=
  (entityTable.find? (fun kv => kv.1.data == s)).map (fun kv => kv.2)

/-- The `for x in range(len(s)-1, 1, -1)` prefix-shortening loop of
`html._replace_charref`: longest known name of length at least 2. -/
def entityShorten (s : List Char) : Nat → Option (List Char)
  | 0 => none
  | x + 1 =>
    if 2 ≤ x + 1 then
      match entityLookup (s.take (x + 1)) with
      | some r => some (r.data ++ s.drop (x + 1))
      | none => entityShorten s x
    else none

/-- Resolve one matched reference group (name plus optional `;`). -/
def entityResolve (s : List Char) : Option (List Char) :=
  match entityLookup s with
  | some r => some r.data
  | none => entityShorten s (s.length - 1)

/-- Hexadecimal digit test for `[0-9a-fA-F]`. -/
def isHexDigit (c : Char) : Bool :=
  c.isDigit || (decide ('a' ≤ c) && decide (c ≤ 'f')) || (decide ('A' ≤ c) && decide (c ≤ 'F'))

def hexVal (c : Char) : Nat :=
  if c.isDigit then c.toNat - 48
  else if 'a' ≤ c ∧ c ≤ 'f' then c.toNat - 87
  else c.toNat - 55

def digitsToNat (base : Nat) (l : List Char) : Nat :=
  l.foldl (fun acc c => acc * base + hexVal c) 0

/-- The numeric branch of `html._replace_charref`: quirk tables, then
surrogates and out-of-range code points to U+FFFD, then `chr`. -/
def numericCharref (num : Nat) : List Char :=
  match (invalidCharrefs.find? (fun kv => kv.1 == num)).map (fun kv => kv.2) with
  | some r => r.data
  | none =>
    if (0xD800 <= num && num <= 0xDFFF) || decide (0x10FFFF < num) then ['\uFFFD']
    else if invalidCodepoints.contains num then []
    else [Char.ofNat num]

/-- Matcher for one character reference after an ampersand. -/
def matchEntity (c : Char) (cs : List Char) : Option (Nat × List Char) :=
  if c = '&' then
    match cs with
    | '#' :: cs2 =>
      match cs2 with
      | x :: cs3 =>
        if x = 'x' ∨ x = 'X' then
          let digits := cs3.takeWhile isHexDigit
          if digits = [] then none
          else
            let hasSemi := (cs3.drop digits.length).head? == some ';'
            some (2 + digits.length + (if hasSemi then 1 else 0),
              numericCharref (digitsToNat 16 digits))
        else
          let digits := cs2.takeWhile Char.isDigit
          if digits = [] then none
          else
            let hasSemi := (cs2.drop digits.length).head? == some ';'
            some (1 + digits.length + (if hasSemi then 1 else 0),
              numericCharref (digitsToNat 10 digits))
      | [] => none
    | _ =>
      let name := (cs.takeWhile entityNameChar).take 32
      if name = [] then none
      else
        let hasSemi := (cs.drop name.length).head? == some ';'
        let group := if hasSemi then name ++ [';'] else name
        match entityResolve group with
        | some repl => some (group.length, repl)
        | none => some (group.length, '&' :: group)
  else none

/-- Matcher for `\n{3,}`, replaced by exactly two newlines. -/
def newlineRunMatch (c : Char) (cs : List Char) : Option (Nat × List Char) :=
  if c = '\n' ∧ 2 ≤ (cs.takeWhile (fun d => d == '\n')).length then
    some ((cs.takeWhile (fun d => d == '\n')).length, ['\n', '\n'])
  else none

/-- The `re.sub(r"\n{3,}", "\n\n", ·)` pass of `_to_plain_text`. -/
def collapseNewlines (s : String) : String :=
  ⟨reSub newlineRunMatch s.data⟩

/-- `EvenG2NotificationService._to_plain_text`: break/paragraph tags to
newlines, strip allow-listed formatting tags, decode entities, collapse
triple newlines, strip. -/
def to_plain_text (text : String) : String :=
  let normalized := reSub matchBr text.data
  let normalized := reSub matchPOpen normalized
  let normalized := reSub matchPClose normalized
  let stripped := reSub matchFormatTag normalized
  let unescaped := reSub matchEntity stripped
  let compact := reSub newlineRunMatch unescaped
  ⟨pyStripList compact⟩

/-! ## Event model

`src/events/types.py` is not part of the provided sources; the event
value types and their field defaults follow §3 of the spec (provider
defaults to the empty string meaning "generic", session id and the
originating-event back-reference default to absent). -/

structure WebhookEvent where
  id : String
  provider : String
  eventTypeName : String
  deliveryId : String
  payload : List (String × PyValue)

structure ScheduledEvent where
  id : String
  jobId : String
  jobName : String
  prompt : String
  skillName : Option String
  workingDirectory : Option (List String)
  targetChatIds : List Int
deriving DecidableEq

structure AgentResponseEvent where
  chatId : Int
  text : String
  provider : String := ""
  sessionId : Option String := none
  originatingEventId : Option String := none
deriving DecidableEq

/-- An event on the bus, as seen by a subscribed handler (the `Event`
parameter of each handler; the `isinstance` filters match on it). -/
inductive Event where
  | webhook (e : WebhookEvent)
  | scheduled (e : ScheduledEvent)
  | agentResponse (e : AgentResponseEvent)

/-- `ClaudeResponse` (the agent backend's return value).  The `cost`
field is a float in the source and is not modelled; no handler or claim
reads it. -/
structure ClaudeResponse where
  content : String
  sessionId : String
  durationMs : Nat
  numTurns : Nat
deriving DecidableEq

/-- Faults that the agent backend can raise
(`ClaudeProcessError` / `ClaudeParsingError` from `src/claude/exceptions.py`). -/
inductive ClaudeError where
  | processError (msg : String)
  | parsingError (msg : String)
deriving DecidableEq

/-- The agent backend as an oracle:
`run_command(prompt, working_directory, user_id, session_id)` either
returns a response or raises. -/
def ClaudeOracle : Type :=
  String → List String → Int → Option String → Except ClaudeError ClaudeResponse

/-- Structured log entries; only the fields that the spec's properties
mention are kept.  `info`-level progress logs are not modelled. -/
inductive LogEntry where
  | warning (msg : String)
  | exceptionLog (msg : String)
  | bridgeRejected (sessionId : String) (sourceEvent : Option String)
      (statusCode : Nat) (bodySnippet : String)
  | deliveryFailed (sessionId : String) (sourceEvent : Option String)
deriving DecidableEq

/-! ## Filesystem and path model

Paths are Posix: a `PurePath` is an absoluteness flag plus the
components `pathlib` keeps (`..` included, `.` and empty components
dropped).  Canonical paths (outputs of `Path.resolve()`) are plain
component lists.  The filesystem itself — symlink resolution and
existence — is an oracle. -/

structure PurePath where
  absolute : Bool
  parts : List String
deriving DecidableEq

/-- Split a character list on `/`. -/
def splitOnChar (sep : Char) : List Char → List (List Char)
  | [] => [[]]
  | c :: cs =>
    let r := splitOnChar sep cs
    if c = sep then [] :: r
    else
      match r with
      | h :: t => (c :: h) :: t
      | [] => [[c]]

/-- `pathlib.PurePosixPath(value)`: components, with empty and `.`
segments dropped, plus the leading-slash absoluteness flag. -/
def parsePath (s : String) : PurePath :=
  { absolute := s.data.head? == some '/',
    parts := ((splitOnChar '/' s.data).map (fun l => String.mk l)).filter
      (fun c => !(c == "") && !(c == ".")) }

/-- A Python `RuntimeError`, as `pathlib.Path.expanduser` raises when
a `~` or `~user` expansion cannot be resolved. -/
inductive PyRuntimeError where
  | runtimeError (msg : String)
deriving DecidableEq

/-- Filesystem oracle: `userHome` is the expansion `os.path.expanduser`
gives a leading `~` or `~user` component (`none` when it cannot be
resolved, which makes `Path.expanduser()` raise `RuntimeError`);
`resolve` is `Path.resolve()` (canonicalization; `none` models the
`RuntimeError`/`OSError`/`ValueError` cases its callers catch); and
`pathExists`/`isDir` are `Path.exists()`/`Path.is_dir()` on canonical
paths. -/
structure FileSystem where
  userHome : String → Option PurePath
  resolve : PurePath → Option (List String)
  pathExists : List String → Bool
  isDir : List String → Bool

/-- `Path.expanduser()`: on a relative path whose first component
begins with `~`, replace that component by the oracle's expansion of it
(`"~"` is the calling user's home, `"~name"` another user's); raise
`RuntimeError` when the expansion cannot be resolved.  Absolute paths
and other relative paths are returned unchanged. -/
def expandUser (fs : FileSystem) (p : PurePath) : Except PyRuntimeError PurePath :=
  match p.absolute, p.parts with
  | false, first :: rest =>
    if first.data.head? == some '~' then
      match fs.userHome first with
      | some home => .ok { absolute := home.absolute, parts := home.parts ++ rest }
      | none => .error (.runtimeError "Could not determine home directory.")
    else .ok p
  | _, _ => .ok p

/-- `AgentHandler._is_within_approved_root`:
`candidate.relative_to(root)` succeeds exactly when the root's
components are a leading segment of the candidate's components. -/
def is_within_approved_root (root candidate : List String) : Bool :=
  root.isPrefixOf candidate

/-- `AgentHandler._resolve_even_g2_working_directory`: validate an
optional webhook-supplied working directory against the approved root
(`defaultWorkingDirectory`, canonicalized at handler construction).
The function is fallible: `Path(value).expanduser()` runs before the
`try:` block, which wraps only `candidate.resolve()`, so its
`RuntimeError` propagates out of this method (and out of
`handle_webhook`, which calls it before its own `try:`). -/
def resolve_even_g2_working_directory (fs : FileSystem)
    (defaultWorkingDirectory : List String) (rawValue : Option PyValue) :
    Except PyRuntimeError (List String) :=
  match rawValue with
  | some (.str raw) =>
    let value := pyStrip raw
    if value = "" then .ok defaultWorkingDirectory
    else
      match expandUser fs (parsePath value) with
      | .error e => .error e
      | .ok candidate =>
        let candidate :=
          if candidate.absolute then candidate
          else { absolute := true, parts := defaultWorkingDirectory ++ candidate.parts }
        match fs.resolve candidate with
        | none => .ok defaultWorkingDirectory
        | some resolvedPath =>
          if is_within_approved_root defaultWorkingDirectory resolvedPath then
            if fs.pathExists resolvedPath && fs.isDir resolvedPath then .ok resolvedPath
            else .ok defaultWorkingDirectory
          else .ok defaultWorkingDirectory
  | _ => .ok defaultWorkingDirectory

/-! ## Prompt construction (`AgentHandler`) -/

/-- The module-level `EVEN_G2_PROMPT_PREFIX` constant of
`src/events/handlers.py` (renamed here). -/
def EVEN_G2_PROMPT_HEADER : String :=
  "You are responding for Even G2 smart glasses.\n" ++
  "Output rules (strict):\n" ++
  "1) Plain text only.\n" ++
  "2) No markdown, no code fences, no tables, no HTML.\n" ++
  "3) Keep it concise by default: about 6-10 short lines.\n" ++
  "4) Start with the direct answer, then short numbered steps if needed.\n" ++
  "5) Keep lines short and easy to read on a tiny display.\n" ++
  "6) If the user explicitly asks for detail, provide at most 3 short sections.\n" ++
  "7) If commands are needed, put one command per line.\n" ++
  "8) For code changes in /home/aza/Desktop/even-dev-pip-boy/apps/g2claude:\n" ++
  "   after edits and checks, when user asks to restart, restart the stack before final response by running:\n" ++
  "   npm run g2:down\n" ++
  "   npm run g2:up\n" ++
  "   (run as two separate commands, not chained with &&).\n"

/-- `AgentHandler._build_even_g2_prompt`. -/
def build_even_g2_prompt (userPrompt : String) : String :=
  EVEN_G2_PROMPT_HEADER ++ "\nUser request:\n" ++ userPrompt

/-- `AgentHandler._flatten_dict`: depth-bounded walk producing
`key: value` lines.  `pfx` is the source's `prefix` accumulator. -/
def flatten_dict (data : PyValue) (pfx : String) (depth maxDepth : Nat) :
    List String :=
  if _h : maxDepth ≤ depth then [pfx ++ ": ..."]
  else
    match data with
    | .dict entries =>
      entries.flatMap (fun kv =>
        let fullKey := if pfx = "" then kv.1 else pfx ++ "." ++ kv.1
        match kv.2 with
        | .dict d => flatten_dict (.dict d) fullKey (depth + 1) maxDepth
        | .list l => flatten_dict (.list l) fullKey (depth + 1) maxDepth
        | v =>
          let valStr := pyStr v
          let valStr := if 200 < valStr.length then ⟨valStr.data.take 200⟩ ++ "..." else valStr
          [fullKey ++ ": " ++ valStr])
    | .list items =>
      (pfx ++ ": [" ++ toString items.length ++ " items]") ::
        ((items.take 3).enum.flatMap (fun it =>
          flatten_dict it.2 (pfx ++ "[" ++ toString it.1 ++ "]") (depth + 1) maxDepth))
    | v => [pfx ++ ": " ++ pyStr v]
termination_by maxDepth - depth
decreasing_by all_goals omega

/-- `AgentHandler._summarize_payload` with its 2000-character cap. -/
def summarize_payload (payload : List (String × PyValue)) : String :=
  let summary := String.intercalate "\n" (flatten_dict (.dict payload) "" 0 2)
  if 2000 < summary.length then ⟨summary.data.take 2000⟩ ++ "\n... (truncated)"
  else summary

/-- `AgentHandler._build_webhook_prompt`. -/
def build_webhook_prompt (e : WebhookEvent) : String :=
  "A " ++ e.provider ++ " webhook event occurred.\n" ++
  "Event type: " ++ e.eventTypeName ++ "\n" ++
  "Payload summary:\n" ++ summarize_payload e.payload ++ "\n\n" ++
  "Analyze this event and provide a concise summary. " ++
  "Highlight anything that needs my attention."

/-- The prompt built by `handle_scheduled`: a truthy skill name is
prefixed as `/<skillName>`, with a blank line before a non-empty body. -/
def scheduled_prompt (e : ScheduledEvent) : String :=
  match e.skillName with
  | some s =>
    if s ≠ "" then
      (if e.prompt ≠ "" then "/" ++ s ++ "\n\n" ++ e.prompt else "/" ++ s)
    else e.prompt
  | none => e.prompt

/-! ## The agent handler -/

/-- Handler construction inputs: the default working directory (already
canonicalized by `__init__`, which calls `.resolve()` on it) and the
default user id. -/
structure AgentHandlerConfig where
  defaultWorkingDirectory : List String
  defaultUserId : Int

/-- What a handler invocation did: events published to the bus, log
entries emitted, and how many times the agent backend was invoked. -/
structure HandlerOutput where
  published : List AgentResponseEvent
  logs : List LogEntry
  claudeCalls : Nat
deriving DecidableEq

/-- The `try:` block of `handle_webhook`: one agent call; on success
with non-empty content, one broadcast `AgentResponseEvent`
(`chat_id = 0`) carrying provider, session id and the originating event
id. -/
def webhook_agent_call (claude : ClaudeOracle) (prompt : String)
    (workingDirectory : List String) (userId : Int) (sessionId : Option String)
    (provider : String) (eventId : String) :
    Except ClaudeError (List AgentResponseEvent) :=
  match claude prompt workingDirectory userId sessionId with
  | .ok response =>
    if response.content ≠ "" then
      .ok [{ chatId := 0, text := response.content, provider := provider,
             sessionId := sessionId, originatingEventId := some eventId }]
    else .ok []
  | .error e => .error e

/-- `AgentHandler.handle_webhook`.  The outer `Except` is the
exceptions the coroutine lets escape to the bus.  The `try:` block
wraps only the agent call and the publish — its faults are caught and
logged — but the even-g2 working-directory resolution runs before the
`try:`, so the `RuntimeError` of `Path.expanduser()` propagates. -/
def handle_webhook (claude : ClaudeOracle) (cfg : AgentHandlerConfig)
    (fs : FileSystem) (event : Event) : Except PyRuntimeError HandlerOutput :=
  match event with
  | .webhook e =>
    if e.provider = "even-g2" then
      let rawPrompt := pyStrip (pyStr ((payloadGet e.payload "text").getD (.str "")))
      let sessionId :=
        let s := pyStrip (pyStr ((payloadGet e.payload "session_id").getD (.str "")))
        if s = "" then none else some s
      if rawPrompt = "" then
        .ok { published := [],
              logs := [.warning "Skipping even-g2 webhook with empty prompt"],
              claudeCalls := 0 }
      else
        let prompt := build_even_g2_prompt rawPrompt
        match resolve_even_g2_working_directory fs
            cfg.defaultWorkingDirectory (payloadGet e.payload "working_directory") with
        | .error err => .error err
        | .ok workingDirectory =>
          match webhook_agent_call claude prompt workingDirectory cfg.defaultUserId
              sessionId e.provider e.id with
          | .ok pubs => .ok { published := pubs, logs := [], claudeCalls := 1 }
          | .error _ =>
            .ok { published := [],
                  logs := [.exceptionLog "Agent execution failed for webhook event"],
                  claudeCalls := 1 }
    else
      let prompt := build_webhook_prompt e
      match webhook_agent_call claude prompt cfg.defaultWorkingDirectory
          cfg.defaultUserId none e.provider e.id with
      | .ok pubs => .ok { published := pubs, logs := [], claudeCalls := 1 }
      | .error _ =>
        .ok { published := [],
              logs := [.exceptionLog "Agent execution failed for webhook event"],
              claudeCalls := 1 }
  | _ => .ok { published := [], logs := [], claudeCalls := 0 }

/-- The `try:` block of `handle_scheduled`: one agent call with no
session id; on success with non-empty content, one event per target
chat id, then the `chat_id = 0` broadcast when no targets were given. -/
def scheduled_agent_call (claude : ClaudeOracle) (prompt : String)
    (workingDirectory : List String) (userId : Int) (e : ScheduledEvent) :
    Except ClaudeError (List AgentResponseEvent) :=
  match claude prompt workingDirectory userId none with
  | .ok response =>
    if response.content ≠ "" then
      .ok (e.targetChatIds.map (fun chatId =>
             { chatId := chatId, text := response.content,
               originatingEventId := some e.id }) ++
           (if e.targetChatIds = [] then
             [{ chatId := 0, text := response.content,
                originatingEventId := some e.id }]
            else []))
    else .ok []
  | .error err => .error err

/-- `AgentHandler.handle_scheduled`.  The outer `Except` is again the
exceptions the coroutine lets escape; here everything fallible sits
inside the `try:` block, so every branch is `.ok`. -/
def handle_scheduled (claude : ClaudeOracle) (cfg : AgentHandlerConfig)
    (event : Event) : Except PyRuntimeError HandlerOutput :=
  match event with
  | .scheduled e =>
    let prompt := scheduled_prompt e
    let workingDir := e.workingDirectory.getD cfg.defaultWorkingDirectory
    match scheduled_agent_call claude prompt workingDir cfg.defaultUserId e with
    | .ok pubs => .ok { published := pubs, logs := [], claudeCalls := 1 }
    | .error _ =>
      .ok { published := [],
            logs := [.exceptionLog "Agent execution failed for scheduled event"],
            claudeCalls := 1 }
  | _ => .ok { published := [], logs := [], claudeCalls := 0 }

/-! ## The even-g2 notification service (`src/notifications/even_g2.py`) -/

/-- Transport-level faults of the bridge HTTP call (connection failure,
timeout — anything `httpx` can raise). -/
inductive HttpError where
  | transport (msg : String)
deriving DecidableEq

/-- The HTTP response the bridge returns. -/
structure HttpResponse where
  statusCode : Nat
  text : String
deriving DecidableEq

/-- One POST request as issued by the service. -/
structure PostRequest where
  url : String
  authorization : String
  bodySessionId : String
  bodyText : String
deriving DecidableEq

/-- The HTTP client as an oracle. -/
def HttpOracle : Type := PostRequest → Except HttpError HttpResponse

/-- Service construction inputs; `__init__` stores
`g2_url.rstrip("/")`, so `g2Url` here is the already-stripped base URL. -/
structure EvenG2Config where
  g2Url : String
  bridgeSecret : String

/-- What one `handle_response` invocation did. -/
structure ResponseOutput where
  posts : List PostRequest
  logs : List LogEntry
deriving DecidableEq

/-- The non-2xx body snippet:
`response.text.replace("\n", " ").strip()[:300]`. -/
def bridge_snippet (t : String) : String :=
  ⟨(pyStripList (t.data.map (fun c => if c = '\n' then ' ' else c))).take 300⟩

/-- The `try:` block of `handle_response`: one POST; a status of 400 or
above is logged with the truncated body snippet. -/
def bridge_delivery (http : HttpOracle) (req : PostRequest) (sessionId : String)
    (sourceEvent : Option String) : Except HttpError (List LogEntry) :=
  match http req with
  | .ok response =>
    if 400 ≤ response.statusCode then
      .ok [.bridgeRejected sessionId sourceEvent response.statusCode
             (bridge_snippet response.text)]
    else .ok []
  | .error e => .error e

/-- `EvenG2NotificationService.handle_response`.  As with the agent
handler, the outer `Except` is what the coroutine lets escape to the
bus; the source catches every fault of the HTTP call. -/
def handle_response (http : HttpOracle) (cfg : EvenG2Config) (event : Event) :
    Except HttpError ResponseOutput :=
  match event with
  | .agentResponse e =>
    if e.provider ≠ "even-g2" then .ok { posts := [], logs := [] }
    else if e.sessionId.getD "" = "" then .ok { posts := [], logs := [] }
    else
      let plainText := to_plain_text e.text
      if plainText = "" then .ok { posts := [], logs := [] }
      else
        let req : PostRequest :=
          { url := cfg.g2Url ++ "/__g2_receive",
            authorization := "Bearer " ++ cfg.bridgeSecret,
            bodySessionId := e.sessionId.getD "",
            bodyText := plainText }
        match bridge_delivery http req (e.sessionId.getD "") e.originatingEventId with
        | .ok logs => .ok { posts := [req], logs := logs }
        | .error _ =>
          .ok { posts := [req],
                logs := [.deliveryFailed (e.sessionId.getD "") e.originatingEventId] }
  | _ => .ok { posts := [], logs := [] }

/-! ## The execution-with-fallback policy

Modelled from the spec: `ClaudeIntegration._execute_with_fallback` in
`src/claude/facade.py` is not among the provided sources (only its unit
tests in `src/tests/unit/test_claude/test_facade.py` are); the
definitions follow §4.3 of the spec and the behaviour those tests pin
down.  The two strategies are modelled by the outcome each would
produce for the request at hand; the third component of the result
counts fallback invocations. -/

/-- Whether `needle` occurs contiguously inside `haystack`. -/
def containsSubstringAux (needle : List Char) : List Char → Bool
  | [] => needle.isEmpty
  | c :: cs => needle.isPrefixOf (c :: cs) || containsSubstringAux needle cs

/-- Substring test (`needle in haystack` in Python). -/
def containsSubstring (haystack needle : String) : Bool :=
  containsSubstringAux needle.data haystack.data

/-- Error classification: a `ClaudeParsingError`, or any error whose
message carries the substring `Unknown message type`, is a parsing
failure of the SDK response stream and is retried on the fallback
strategy. -/
def isSdkParseFailure : ClaudeError → Bool
  | .parsingError _ => true
  | .processError msg => containsSubstring msg "Unknown message type"

/-- Modelled from the spec:
`ClaudeIntegration._execute_with_fallback` — try the primary (SDK)
strategy; on a parsing failure, bump `_sdk_failed_count` and return the
fallback (subprocess) strategy's outcome unmodified; on any other
error, propagate it; never invoke the fallback otherwise.  Returns
(outcome, new failure count, number of fallback invocations). -/
def execute_with_fallback (primary fallback : Except ClaudeError ClaudeResponse)
    (sdkFailedCount : Nat) :
    Except ClaudeError ClaudeResponse × Nat × Nat :=
  match primary with
  | .ok r => (.ok r, sdkFailedCount, 0)
  | .error e =>
    if isSdkParseFailure e then (fallback, sdkFailedCount + 1, 1)
    else (.error e, sdkFailedCount, 0)

/-! ## Projection helpers for stating the claims -/

def publishedEvents (r : Except PyRuntimeError HandlerOutput) : List AgentResponseEvent :=
  match r with
  | .ok out => out.published
  | .error _ => []

def claudeCallsOf (r : Except PyRuntimeError HandlerOutput) : Nat :=
  match r with
  | .ok out => out.claudeCalls
  | .error _ => 0

def responsePosts (r : Except HttpError ResponseOutput) : List PostRequest :=
  match r with
  | .ok out => out.posts
  | .error _ => []

def responseLogs (r : Except HttpError ResponseOutput) : List LogEntry :=
  match r with
  | .ok out => out.logs
  | .error _ => []

def exceptOk {ε α : Type} : Except ε α → Bool
  | .ok _ => true
  | .error _ => false

/-! ## Claim theorems -/

set_option maxRecDepth 8192

/-- C2: when the primary strategy fails with an error classified as a
parsing failure of its response stream — every `ClaudeParsingError`,
and any error whose message carries the substring
`Unknown message type` — the fallback strategy is invoked exactly once
and its outcome (success or its own error) is returned unmodified with
the SDK-failure counter incremented by one; any other primary error
propagates unchanged with the fallback never invoked; a primary success
is returned directly with the fallback never invoked. -/
theorem execute_with_fallback_policy
    (primary fallback : Except ClaudeError ClaudeResponse) (count : Nat) :
    (∀ r, primary = .ok r →
      execute_with_fallback primary fallback count = (.ok r, count, 0)) ∧
    (∀ err, primary = .error err → isSdkParseFailure err = true →
      execute_with_fallback primary fallback count = (fallback, count + 1, 1)) ∧
    (∀ err, primary = .error err → isSdkParseFailure err = false →
      execute_with_fallback primary fallback count = (.error err, count, 0)) ∧
    (∀ msg, isSdkParseFailure (.parsingError msg) = true) ∧
    (∀ msg, containsSubstring msg "Unknown message type" = true →
      isSdkParseFailure (.processError msg) = true) := by
  refine ⟨?_, ?_, ?_, ?_, ?_⟩
  · intro r h; subst h; rfl
  · intro err h hc; subst h; simp [execute_with_fallback, hc]
  · intro err h hc; subst h; simp [execute_with_fallback, hc]
  · intro msg; rfl
  · intro msg hc; simpa [isSdkParseFailure] using hc

/-- Witness for C2 at the inputs of
`test_fallback_on_unknown_message_type`: an SDK `ClaudeProcessError`
carrying `Unknown message type` makes the policy return the subprocess
strategy's response and bump the failure counter. -/
theorem execute_with_fallback_policy_witness :
    execute_with_fallback
        (.error (.processError "Claude SDK error: Unknown message type: rate_limit_event"))
        (.ok { content := "ok", sessionId := "proc-session", durationMs := 1, numTurns := 1 })
        0 =
      (.ok { content := "ok", sessionId := "proc-session", durationMs := 1, numTurns := 1 }, 1, 1) :=
  (execute_with_fallback_policy _ _ 0).2.1 _ rfl (by decide)

/-- C8: sanitization strips tags before decoding entities, so decoded
angle brackets stay literal: the two concrete vectors of the spec. -/
theorem to_plain_text_entity_fidelity :
    to_plain_text "Literal: &lt;config&gt; and 2 &lt; 3" = "Literal: <config> and 2 < 3" ∧
    to_plain_text "<p><code>if x &lt; y:</code><br/>pass</p>" = "if x < y:\npass" := by
  constructor
  · decide
  · decide

/-- C1: for every webhook-supplied working-directory value (any payload
type, any string) and every filesystem behaviour, whenever the even-g2
working-directory resolution returns a directory, it is either the
canonicalized default working directory itself or an existing
directory whose components extend the approved root's; and ancestry is
decided componentwise, not by string prefix: a sibling directory
sharing a string prefix with the root (here
`/home/user/approved-root-evil` against root
`/home/user/approved-root`, existing and canonical) resolves to the
default root. -/
theorem even_g2_working_directory_containment :
    (∀ (fs : FileSystem) (root : List String) (raw : Option PyValue)
        (wd : List String),
      resolve_even_g2_working_directory fs root raw = .ok wd →
      (wd = root ∨
        (is_within_approved_root root wd = true ∧
         fs.pathExists wd = true ∧ fs.isDir wd = true))) ∧
    resolve_even_g2_working_directory
        { userHome := fun _ => some ⟨true, ["home", "user"]⟩,
          resolve := fun p => some p.parts,
          pathExists := fun _ => true, isDir := fun _ => true }
        ["home", "user", "approved-root"]
        (some (.str "/home/user/approved-root-evil")) =
      .ok ["home", "user", "approved-root"] := by
  constructor
  · intro fs root raw wd h
    match raw with
    | none => cases h; exact Or.inl rfl
    | some (.int _) | some (.bool _) | some .none | some (.list _) | some (.dict _) =>
      cases h; exact Or.inl rfl
    | some (.str s) =>
      rw [resolve_even_g2_working_directory] at h
      split at h
      · cases h; exact Or.inl rfl
      · split at h
        · cases h
        · dsimp only at h
          split at h
          · cases h; exact Or.inl rfl
          · split at h
            · split at h
              · rename_i hwithin hdir
                cases h
                right
                exact ⟨hwithin, (Bool.and_eq_true _ _).mp hdir |>.1,
                  (Bool.and_eq_true _ _).mp hdir |>.2⟩
              · cases h; exact Or.inl rfl
            · cases h; exact Or.inl rfl
  · rfl

/-- Witness for C1: a concrete in-root candidate
(`/home/user/approved-root/sub`, existing, canonical) resolves to an
existing directory extending the approved root. -/
theorem even_g2_working_directory_containment_witness :
    (["home", "user", "approved-root", "sub"] : List String) =
        ["home", "user", "approved-root"] ∨
      (is_within_approved_root ["home", "user", "approved-root"]
          ["home", "user", "approved-root", "sub"] = true ∧
        FileSystem.pathExists
          { userHome := fun _ => some ⟨true, ["home", "user"]⟩,
            resolve := fun p => some p.parts,
            pathExists := fun _ => true, isDir := fun _ => true }
          ["home", "user", "approved-root", "sub"] = true ∧
        FileSystem.isDir
          { userHome := fun _ => some ⟨true, ["home", "user"]⟩,
            resolve := fun p => some p.parts,
            pathExists := fun _ => true, isDir := fun _ => true }
          ["home", "user", "approved-root", "sub"] = true) :=
  even_g2_working_directory_containment.1
    { userHome := fun _ => some ⟨true, ["home", "user"]⟩,
      resolve := fun p => some p.parts,
      pathExists := fun _ => true, isDir := fun _ => true }
    ["home", "user", "approved-root"]
    (some (.str "/home/user/approved-root/sub"))
    ["home", "user", "approved-root", "sub"] rfl

/-- C4 counterexample: a scheduled event with the non-empty target list
`[0]` and a successful non-empty agent response publishes an
`AgentResponseEvent` whose chat id is 0, so the claim's clause "no
chat-id-0 event is published" fails for non-empty `targetChatIds`
containing the sentinel itself. -/
theorem handle_scheduled_chat_zero_counterexample :
    (publishedEvents (handle_scheduled
        (fun _ _ _ _ =>
          .ok { content := "hello", sessionId := "s", durationMs := 1, numTurns := 1 })
        { defaultWorkingDirectory := ["srv"], defaultUserId := 7 }
        (.scheduled { id := "ev-1", jobId := "j-1", jobName := "nightly",
                      prompt := "do it", skillName := none, workingDirectory := none,
                      targetChatIds := [0] }))).map (fun ev => ev.chatId) = [0] ∧
    ([0] : List Int) ≠ [] := by
  exact ⟨rfl, by decide⟩

/-- C4 (amended): for every scheduled event whose agent call succeeds
with non-empty content, empty `targetChatIds` produces exactly one
event with the broadcast sentinel `chatId = 0`, and non-empty
`targetChatIds` produces exactly one event per target chat id, in
input order, each with that chat id, the same text and the same
originating-event id — with a chat-id-0 event appearing only when `0`
is itself among `targetChatIds`. -/
theorem handle_scheduled_broadcast (claude : ClaudeOracle) (cfg : AgentHandlerConfig)
    (e : ScheduledEvent) (resp : ClaudeResponse)
    (hcall : claude (scheduled_prompt e)
        (e.workingDirectory.getD cfg.defaultWorkingDirectory)
        cfg.defaultUserId none = .ok resp)
    (hcontent : resp.content ≠ "") :
    (e.targetChatIds = [] →
      publishedEvents (handle_scheduled claude cfg (.scheduled e)) =
        [{ chatId := 0, text := resp.content, originatingEventId := some e.id }]) ∧
    (e.targetChatIds ≠ [] →
      publishedEvents (handle_scheduled claude cfg (.scheduled e)) =
        e.targetChatIds.map (fun chatId =>
          { chatId := chatId, text := resp.content, originatingEventId := some e.id }) ∧
      ((0 : Int) ∉ e.targetChatIds →
        ∀ ev ∈ publishedEvents (handle_scheduled claude cfg (.scheduled e)),
          ev.chatId ≠ 0)) := by
  constructor
  · intro hempty
    simp [handle_scheduled, scheduled_agent_call, hcall, hcontent, hempty, publishedEvents]
  · intro hne
    constructor
    · simp [handle_scheduled, scheduled_agent_call, hcall, hcontent, hne, publishedEvents]
    · intro h0 ev hmem
      simp [handle_scheduled, scheduled_agent_call, hcall, hcontent, hne, publishedEvents,
        List.mem_map] at hmem
      obtain ⟨c, hc, hev⟩ := hmem
      intro hzero
      apply h0
      have : ev.chatId = c := by rw [← hev]
      rw [← this, hzero] at hc
      exact hc

/-- Witness for C4 (amended) at a scheduled event with targets
`[11, 22]` and response text `hello`: exactly two events, in input
order, same text, same originating id. -/
theorem handle_scheduled_broadcast_witness :
    publishedEvents (handle_scheduled
        (fun _ _ _ _ =>
          .ok { content := "hello", sessionId := "s", durationMs := 1, numTurns := 1 })
        { defaultWorkingDirectory := ["srv"], defaultUserId := 7 }
        (.scheduled { id := "ev-2", jobId := "j", jobName := "n", prompt := "p",
                      skillName := none, workingDirectory := none,
                      targetChatIds := [11, 22] })) =
      [{ chatId := 11, text := "hello", originatingEventId := some "ev-2" },
       { chatId := 22, text := "hello", originatingEventId := some "ev-2" }] :=
  ((handle_scheduled_broadcast _ _ _
      { content := "hello", sessionId := "s", durationMs := 1, numTurns := 1 }
      rfl (by decide)).2 (by decide)).1

/-- Every event list produced by the webhook try-block consists of
events carrying the (non-empty) response content as text. -/
theorem webhook_agent_call_all_nonempty (claude : ClaudeOracle) (p : String)
    (wd : List String) (uid : Int) (sid : Option String) (prov eid : String)
    (pubs : List AgentResponseEvent)
    (h : webhook_agent_call claude p wd uid sid prov eid = .ok pubs) :
    pubs.all (fun ev => !(ev.text == "")) = true := by
  unfold webhook_agent_call at h
  cases hc : claude p wd uid sid with
  | ok r =>
    rw [hc] at h
    by_cases hr : r.content = ""
    · simp [hr] at h; subst h; rfl
    · simp [hr] at h; subst h; simp [List.all_cons, hr]
  | error e => rw [hc] at h; cases h

/-- Every event list produced by the scheduled try-block consists of
events carrying the (non-empty) response content as text. -/
theorem scheduled_agent_call_all_nonempty (claude : ClaudeOracle) (p : String)
    (wd : List String) (uid : Int) (e : ScheduledEvent)
    (pubs : List AgentResponseEvent)
    (h : scheduled_agent_call claude p wd uid e = .ok pubs) :
    pubs.all (fun ev => !(ev.text == "")) = true := by
  unfold scheduled_agent_call at h
  cases hc : claude p wd uid none with
  | ok r =>
    rw [hc] at h
    by_cases hr : r.content = ""
    · simp [hr] at h; subst h; rfl
    · simp [hr] at h
      subst h
      rw [List.all_append]
      refine (Bool.and_eq_true _ _).mpr ⟨?_, ?_⟩
      · rw [List.all_eq_true]
        intro ev hev
        rw [List.mem_map] at hev
        obtain ⟨c, _, hc2⟩ := hev
        subst hc2
        simpa using hr
      · split
        · simp [List.all_cons, hr]
        · rfl
  | error err => rw [hc] at h; cases h

/-- C5: every `AgentResponseEvent` published by `handle_webhook` or
`handle_scheduled` carries non-empty text, and when the agent call
returns empty content no event is published at all. -/
theorem published_text_nonempty :
    (∀ (claude : ClaudeOracle) (cfg : AgentHandlerConfig) (fs : FileSystem) (event : Event),
      (publishedEvents (handle_webhook claude cfg fs event)).all
        (fun ev => !(ev.text == "")) = true) ∧
    (∀ (claude : ClaudeOracle) (cfg : AgentHandlerConfig) (event : Event),
      (publishedEvents (handle_scheduled claude cfg event)).all
        (fun ev => !(ev.text == "")) = true) ∧
    (∀ (resp : ClaudeResponse) (cfg : AgentHandlerConfig) (fs : FileSystem) (event : Event),
      resp.content = "" →
      publishedEvents (handle_webhook (fun _ _ _ _ => .ok resp) cfg fs event) = [] ∧
      publishedEvents (handle_scheduled (fun _ _ _ _ => .ok resp) cfg event) = []) := by
  refine ⟨?_, ?_, ?_⟩
  · intro claude cfg fs event
    cases event with
    | webhook e =>
      simp only [handle_webhook]
      split
      · split
        · rfl
        · split
          · rfl
          · split
            · rename_i pubs heq
              exact webhook_agent_call_all_nonempty _ _ _ _ _ _ _ _ heq
            · rfl
      · split
        · rename_i pubs heq
          exact webhook_agent_call_all_nonempty _ _ _ _ _ _ _ _ heq
        · rfl
    | scheduled e => rfl
    | agentResponse e => rfl
  · intro claude cfg event
    cases event with
    | scheduled e =>
      simp only [handle_scheduled]
      split
      · rename_i pubs heq
        exact scheduled_agent_call_all_nonempty _ _ _ _ _ _ heq
      · rfl
    | webhook e => rfl
    | agentResponse e => rfl
  · intro resp cfg fs event hresp
    constructor
    · cases event with
      | webhook e =>
        simp only [handle_webhook, webhook_agent_call, hresp]
        (repeat' split) <;> simp_all [publishedEvents]
      | scheduled e => rfl
      | agentResponse e => rfl
    · cases event with
      | scheduled e =>
        simp [handle_scheduled, scheduled_agent_call, hresp, publishedEvents]
      | webhook e => rfl
      | agentResponse e => rfl

/-- Witness for C5: a webhook and a scheduled event handled against an
agent whose response content is empty publish nothing; the first
conjuncts evaluate on a published-event list of a successful run. -/
theorem published_text_nonempty_witness :
    publishedEvents (handle_webhook
        (fun _ _ _ _ =>
          .ok { content := "", sessionId := "s", durationMs := 1, numTurns := 1 })
        { defaultWorkingDirectory := ["srv"], defaultUserId := 7 }
        { userHome := fun _ => some ⟨true, ["home"]⟩, resolve := fun p => some p.parts,
          pathExists := fun _ => true, isDir := fun _ => true }
        (.webhook { id := "e1", provider := "even-g2", eventTypeName := "t",
                    deliveryId := "d", payload := [("text", .str "hi")] })) = [] ∧
    publishedEvents (handle_scheduled
        (fun _ _ _ _ =>
          .ok { content := "", sessionId := "s", durationMs := 1, numTurns := 1 })
        { defaultWorkingDirectory := ["srv"], defaultUserId := 7 }
        (.scheduled { id := "e2", jobId := "j", jobName := "n", prompt := "p",
                      skillName := none, workingDirectory := none,
                      targetChatIds := [] })) = [] :=
  published_text_nonempty.2.2
    { content := "", sessionId := "s", durationMs := 1, numTurns := 1 } _ _ _ rfl

/-- C6: an even-g2 webhook whose payload `text` is absent, empty or
whitespace-only is dropped with a warning: no agent invocation, no
published event. -/
theorem even_g2_empty_prompt_drop (claude : ClaudeOracle) (cfg : AgentHandlerConfig)
    (fs : FileSystem) (e : WebhookEvent)
    (hprov : e.provider = "even-g2")
    (htext : payloadGet e.payload "text" = none ∨
      ∃ s, payloadGet e.payload "text" = some (.str s) ∧ pyStrip s = "") :
    claudeCallsOf (handle_webhook claude cfg fs (.webhook e)) = 0 ∧
    publishedEvents (handle_webhook claude cfg fs (.webhook e)) = [] ∧
    handle_webhook claude cfg fs (.webhook e) =
      .ok { published := [],
            logs := [.warning "Skipping even-g2 webhook with empty prompt"],
            claudeCalls := 0 } := by
  have hraw : pyStrip (pyStr ((payloadGet e.payload "text").getD (.str ""))) = "" := by
    rcases htext with h | ⟨s, hs, hstrip⟩
    · rw [h]; rfl
    · rw [hs]; exact hstrip
  refine ⟨?_, ?_, ?_⟩ <;>
    simp [handle_webhook, hprov, hraw, claudeCallsOf, publishedEvents]

/-- Witness for C6: a concrete even-g2 webhook with no `text` field at
all is dropped with zero agent calls and zero publications. -/
theorem even_g2_empty_prompt_drop_witness :
    claudeCallsOf (handle_webhook
        (fun _ _ _ _ => .error (.processError "never called"))
        { defaultWorkingDirectory := ["srv"], defaultUserId := 7 }
        { userHome := fun _ => some ⟨true, ["home"]⟩, resolve := fun p => some p.parts,
          pathExists := fun _ => true, isDir := fun _ => true }
        (.webhook { id := "e1", provider := "even-g2", eventTypeName := "t",
                    deliveryId := "d", payload := [] })) = 0 ∧
    publishedEvents (handle_webhook
        (fun _ _ _ _ => .error (.processError "never called"))
        { defaultWorkingDirectory := ["srv"], defaultUserId := 7 }
        { userHome := fun _ => some ⟨true, ["home"]⟩, resolve := fun p => some p.parts,
          pathExists := fun _ => true, isDir := fun _ => true }
        (.webhook { id := "e1", provider := "even-g2", eventTypeName := "t",
                    deliveryId := "d", payload := [] })) = [] :=
  ⟨(even_g2_empty_prompt_drop _ _ _
      { id := "e1", provider := "even-g2", eventTypeName := "t",
        deliveryId := "d", payload := [] } rfl (Or.inl rfl)).1,
   (even_g2_empty_prompt_drop _ _ _
      { id := "e1", provider := "even-g2", eventTypeName := "t",
        deliveryId := "d", payload := [] } rfl (Or.inl rfl)).2.1⟩

/-- Each event published by the webhook try-block carries the session
id and provider the handler passed in. -/
theorem webhook_agent_call_fields (claude : ClaudeOracle) (p : String)
    (wd : List String) (uid : Int) (sid : Option String) (prov eid : String)
    (pubs : List AgentResponseEvent)
    (h : webhook_agent_call claude p wd uid sid prov eid = .ok pubs) :
    ∀ ev ∈ pubs, ev.sessionId = sid ∧ ev.provider = prov := by
  unfold webhook_agent_call at h
  cases hc : claude p wd uid sid with
  | ok r =>
    rw [hc] at h
    by_cases hr : r.content = ""
    · simp [hr] at h; subst h; intro ev hev; cases hev
    · simp [hr] at h
      subst h
      intro ev hev
      rw [List.mem_singleton] at hev
      subst hev
      exact ⟨rfl, rfl⟩
  | error err => rw [hc] at h; cases h

/-- An `AgentResponseEvent` without a session id is never delivered to
the bridge. -/
theorem handle_response_no_session (http : HttpOracle) (cfg : EvenG2Config)
    (ev : AgentResponseEvent) (hsid : ev.sessionId = none) :
    responsePosts (handle_response http cfg (.agentResponse ev)) = [] := by
  simp only [handle_response]
  split
  · rfl
  · simp [hsid, responsePosts]

/-- C10: an even-g2 webhook whose payload `session_id` is absent, empty
or whitespace-only yields published events whose `sessionId` is `none`,
and `handle_response` therefore never issues a POST for them. -/
theorem even_g2_missing_session_isolation (claude : ClaudeOracle)
    (cfg : AgentHandlerConfig) (fs : FileSystem) (http : HttpOracle)
    (g2cfg : EvenG2Config) (e : WebhookEvent)
    (hprov : e.provider = "even-g2")
    (hsess : payloadGet e.payload "session_id" = none ∨
      ∃ s, payloadGet e.payload "session_id" = some (.str s) ∧ pyStrip s = "") :
    ∀ ev ∈ publishedEvents (handle_webhook claude cfg fs (.webhook e)),
      ev.sessionId = none ∧
      responsePosts (handle_response http g2cfg (.agentResponse ev)) = [] := by
  have hsid : pyStrip (pyStr ((payloadGet e.payload "session_id").getD (.str ""))) = "" := by
    rcases hsess with h | ⟨s, hs, hstrip⟩
    · rw [h]; rfl
    · rw [hs]; exact hstrip
  intro ev hmem
  simp only [handle_webhook, hprov, if_pos, hsid, if_true] at hmem
  split at hmem
  · simp [publishedEvents] at hmem
  · split at hmem
    · simp [publishedEvents] at hmem
    · split at hmem
      · rename_i pubs heq
        simp only [publishedEvents] at hmem
        have hfields := webhook_agent_call_fields _ _ _ _ _ _ _ _ heq ev hmem
        exact ⟨hfields.1, handle_response_no_session _ _ _ hfields.1⟩
      · simp [publishedEvents] at hmem

/-- Witness for C10: a concrete even-g2 webhook with `text` present and
no `session_id` publishes one event whose session id is `none`, and
delivering that event issues no POST. -/
theorem even_g2_missing_session_isolation_witness :
    ({ chatId := 0, text := "reply", provider := "even-g2", sessionId := none,
       originatingEventId := some "e1" } : AgentResponseEvent).sessionId = none ∧
    responsePosts (handle_response (fun _ => .ok ⟨200, "ok"⟩)
      { g2Url := "http://localhost:5173", bridgeSecret := "secret" }
      (.agentResponse { chatId := 0, text := "reply", provider := "even-g2",
                        sessionId := none, originatingEventId := some "e1" })) = [] :=
  even_g2_missing_session_isolation
    (fun _ _ _ _ =>
      .ok { content := "reply", sessionId := "s", durationMs := 1, numTurns := 1 })
    { defaultWorkingDirectory := ["srv"], defaultUserId := 7 }
    { userHome := fun _ => some ⟨true, ["home"]⟩, resolve := fun p => some p.parts,
      pathExists := fun _ => true, isDir := fun _ => true }
    (fun _ => .ok ⟨200, "ok"⟩)
    { g2Url := "http://localhost:5173", bridgeSecret := "secret" }
    { id := "e1", provider := "even-g2", eventTypeName := "t", deliveryId := "d",
      payload := [("text", .str "hi")] }
    rfl (Or.inl rfl) _ (by decide)

/-- C3 (code bug): the claimed catch-log-drop handler boundary fails on
one input-reachable path.  `Path(value).expanduser()` runs at
`handlers.py:196`, outside the resolver's `try:` (which wraps only
`.resolve()`), and the resolver is called at `handlers.py:82-84`,
before `handle_webhook`'s own `try:` — so an even-g2 webhook whose
`working_directory` payload names an unknown user (here
`~nosuchuser/repo`, with the expansion oracle unable to resolve it, as
CPython's `RuntimeError: Could not determine home directory.`) makes
`handle_webhook` raise to the bus instead of logging.  The agent
backend is never reached on this path.  `handle_scheduled` and
`handle_response` have no such pre-`try` fallible call and do catch
every fault, for every oracle behaviour. -/
theorem handle_webhook_expanduser_escape :
    (handle_webhook
        (fun _ _ _ _ =>
          .ok { content := "reply", sessionId := "s", durationMs := 1, numTurns := 1 })
        { defaultWorkingDirectory := ["srv"], defaultUserId := 7 }
        { userHome := fun _ => none, resolve := fun p => some p.parts,
          pathExists := fun _ => true, isDir := fun _ => true }
        (.webhook { id := "e1", provider := "even-g2", eventTypeName := "t",
                    deliveryId := "d",
                    payload := [("text", .str "hi"),
                                ("working_directory", .str "~nosuchuser/repo")] }) =
      .error (.runtimeError "Could not determine home directory.")) ∧
    exceptOk (handle_webhook
        (fun _ _ _ _ =>
          .ok { content := "reply", sessionId := "s", durationMs := 1, numTurns := 1 })
        { defaultWorkingDirectory := ["srv"], defaultUserId := 7 }
        { userHome := fun _ => none, resolve := fun p => some p.parts,
          pathExists := fun _ => true, isDir := fun _ => true }
        (.webhook { id := "e1", provider := "even-g2", eventTypeName := "t",
                    deliveryId := "d",
                    payload := [("text", .str "hi"),
                                ("working_directory", .str "~nosuchuser/repo")] })) = false ∧
    (∀ (claude : ClaudeOracle) (cfg : AgentHandlerConfig) (event : Event),
      exceptOk (handle_scheduled claude cfg event) = true) ∧
    (∀ (http : HttpOracle) (cfg : EvenG2Config) (event : Event),
      exceptOk (handle_response http cfg event) = true) := by
  refine ⟨rfl, rfl, ?_, ?_⟩
  · intro claude cfg event
    cases event with
    | scheduled e =>
      simp only [handle_scheduled]
      (repeat' split) <;> rfl
    | webhook e => rfl
    | agentResponse e => rfl
  · intro http cfg event
    cases event with
    | agentResponse e =>
      simp only [handle_response]
      (repeat' split) <;> rfl
    | webhook e => rfl
    | scheduled e => rfl

/-- C7: `handle_response` issues a POST only for an
`AgentResponseEvent` with provider exactly `even-g2`, a present
non-empty session id and non-empty sanitized text; it issues at most
one POST per event, always to `<g2Url>/__g2_receive` with the Bearer
header and the `{sessionId, text}` body; a status of 400 or above is
logged once with the status code and a body snippet of at most 300
characters and is not retried; and no fault of the HTTP call escapes
the handler. -/
theorem even_g2_delivery_policy :
    (∀ (http : HttpOracle) (cfg : EvenG2Config) (event : Event),
      (responsePosts (handle_response http cfg event)).length ≤ 1) ∧
    (∀ (http : HttpOracle) (cfg : EvenG2Config) (we : WebhookEvent),
      responsePosts (handle_response http cfg (.webhook we)) = []) ∧
    (∀ (http : HttpOracle) (cfg : EvenG2Config) (se : ScheduledEvent),
      responsePosts (handle_response http cfg (.scheduled se)) = []) ∧
    (∀ (http : HttpOracle) (cfg : EvenG2Config) (e : AgentResponseEvent),
      responsePosts (handle_response http cfg (.agentResponse e)) ≠ [] →
        e.provider = "even-g2" ∧ e.sessionId.getD "" ≠ "" ∧ to_plain_text e.text ≠ "") ∧
    (∀ (http : HttpOracle) (cfg : EvenG2Config) (e : AgentResponseEvent),
      ∀ req ∈ responsePosts (handle_response http cfg (.agentResponse e)),
        req = { url := cfg.g2Url ++ "/__g2_receive",
                authorization := "Bearer " ++ cfg.bridgeSecret,
                bodySessionId := e.sessionId.getD "",
                bodyText := to_plain_text e.text }) ∧
    (∀ (cfg : EvenG2Config) (e : AgentResponseEvent) (resp : HttpResponse),
      400 ≤ resp.statusCode →
      e.provider = "even-g2" → e.sessionId.getD "" ≠ "" → to_plain_text e.text ≠ "" →
      handle_response (fun _ => .ok resp) cfg (.agentResponse e) =
        .ok { posts := [{ url := cfg.g2Url ++ "/__g2_receive",
                          authorization := "Bearer " ++ cfg.bridgeSecret,
                          bodySessionId := e.sessionId.getD "",
                          bodyText := to_plain_text e.text }],
              logs := [.bridgeRejected (e.sessionId.getD "") e.originatingEventId
                         resp.statusCode (bridge_snippet resp.text)] }) ∧
    (∀ (t : String), (bridge_snippet t).length ≤ 300) ∧
    (∀ (http : HttpOracle) (cfg : EvenG2Config) (event : Event),
      exceptOk (handle_response http cfg event) = true) := by
  refine ⟨?_, ?_, ?_, ?_, ?_, ?_, ?_, ?_⟩
  · intro http cfg event
    cases event with
    | agentResponse e =>
      simp only [handle_response]
      (repeat' split) <;> simp [responsePosts]
    | webhook e => simp [handle_response, responsePosts]
    | scheduled e => simp [handle_response, responsePosts]
  · intro http cfg we; rfl
  · intro http cfg se; rfl
  · intro http cfg e hne
    revert hne
    simp only [handle_response]
    split
    · intro hne; exact absurd rfl hne
    · rename_i hprov
      split
      · intro hne; exact absurd rfl hne
      · rename_i hsid
        split
        · intro hne; exact absurd rfl hne
        · rename_i hpt
          intro _
          exact ⟨not_not.mp hprov, hsid, hpt⟩
  · intro http cfg e req hmem
    revert hmem
    simp only [handle_response]
    split
    · intro hmem; cases hmem
    · split
      · intro hmem; cases hmem
      · split
        · intro hmem; cases hmem
        · split <;>
          · intro hmem
            simp only [responsePosts] at hmem
            rw [List.mem_singleton] at hmem
            subst hmem
            rfl
  · intro cfg e resp hstat hprov hsid hpt
    simp [handle_response, hprov, hsid, hpt, bridge_delivery, hstat]
  · intro t
    simp only [bridge_snippet, String.length]
    rw [List.length_take]
    omega
  · intro http cfg event
    cases event with
    | agentResponse e =>
      simp only [handle_response]
      (repeat' split) <;> rfl
    | webhook e => rfl
    | scheduled e => rfl

/-- Witness for C7 at the inputs of
`test_non_2xx_callback_status_is_logged`: a 401 response with body
`invalid authorization token` yields one POST and one warning log
carrying the status code and the (un-truncated, 27-character) body
snippet. -/
theorem even_g2_delivery_policy_witness :
    handle_response (fun _ => .ok ⟨401, "invalid authorization token"⟩)
        { g2Url := "http://localhost:5173", bridgeSecret := "bridge-secret" }
        (.agentResponse { chatId := 0, text := "hello", provider := "even-g2",
                          sessionId := some "sess-3",
                          originatingEventId := some "evt-1" }) =
      .ok { posts := [{ url := "http://localhost:5173/__g2_receive",
                        authorization := "Bearer bridge-secret",
                        bodySessionId := "sess-3", bodyText := "hello" }],
            logs := [.bridgeRejected "sess-3" (some "evt-1") 401
                       "invalid authorization token"] } :=
  even_g2_delivery_policy.2.2.2.2.2.1 _
    { chatId := 0, text := "hello", provider := "even-g2",
      sessionId := some "sess-3", originatingEventId := some "evt-1" }
    ⟨401, "invalid authorization token"⟩
    (by decide) rfl (by decide) (by decide)

/-! ## Lemmas for sanitization idempotence (C9) -/

/-- A scan whose matcher never fires on the characters of `l` is the
identity. -/
theorem reSubGo_eq_self (m : Char → List Char → Option (Nat × List Char))
    (trig : Char → Bool) (hm : ∀ c cs, trig c = false → m c cs = none) :
    ∀ (fuel : Nat) (l : List Char), l.length ≤ fuel →
      (∀ c ∈ l, trig c = false) → reSubGo m fuel l = l := by
  intro fuel
  induction fuel with
  | zero =>
    intro l hl _
    cases l with
    | nil => rfl
    | cons c cs => simp at hl
  | succ f ih =>
    intro l hl hc
    cases l with
    | nil => rfl
    | cons c cs =>
      have hnone := hm c cs (hc c (List.mem_cons_self c cs))
      simp only [reSubGo, hnone]
      rw [ih cs (by simpa using Nat.le_of_succ_le_succ hl)
        (fun d hd => hc d (List.mem_cons_of_mem c hd))]

theorem matchBr_none (c : Char) (cs : List Char) (h : (c == '<') = false) :
    matchBr c cs = none := by
  simp only [matchBr]
  rw [if_neg (by simpa using h)]

theorem matchPOpen_none (c : Char) (cs : List Char) (h : (c == '<') = false) :
    matchPOpen c cs = none := by
  simp only [matchPOpen]
  rw [if_neg (by simpa using h)]

theorem matchPClose_none (c : Char) (cs : List Char) (h : (c == '<') = false) :
    matchPClose c cs = none := by
  simp only [matchPClose]
  rw [if_neg (by simpa using h)]

theorem matchFormatTag_none (c : Char) (cs : List Char) (h : (c == '<') = false) :
    matchFormatTag c cs = none := by
  simp only [matchFormatTag]
  rw [if_neg (by simpa using h)]

theorem matchEntity_none (c : Char) (cs : List Char) (h : (c == '&') = false) :
    matchEntity c cs = none := by
  simp only [matchEntity]
  rw [if_neg (by simpa using h)]

theorem newlineRunMatch_none (c : Char) (cs : List Char) (h : (c == '\n') = false) :
    newlineRunMatch c cs = none := by
  simp only [newlineRunMatch]
  rw [if_neg]
  intro hand
  simp [hand.1] at h

/-- No run of three (or more) consecutive newlines occurs. -/
def noTriple : List Char → Bool
  | c1 :: c2 :: c3 :: rest =>
    (!(c1 == '\n' && c2 == '\n' && c3 == '\n')) && noTriple (c2 :: c3 :: rest)
  | _ => true

theorem noTriple_tail (c : Char) (l : List Char) (h : noTriple (c :: l) = true) :
    noTriple l = true := by
  match l with
  | [] => rfl
  | [_] => rfl
  | x :: y :: ys =>
    rw [noTriple] at h
    exact ((Bool.and_eq_true _ _).mp h).2

theorem noTriple_cons_of_ne (c : Char) (l : List Char) (hc : ¬ c = '\n')
    (h : noTriple l = true) : noTriple (c :: l) = true := by
  match l with
  | [] => rfl
  | [_] => rfl
  | x :: y :: ys =>
    rw [noTriple]
    refine (Bool.and_eq_true _ _).mpr ⟨?_, h⟩
    simp [hc]

theorem noTriple_nl_cons_of_head (l : List Char) (hh : l.head? ≠ some '\n')
    (h : noTriple l = true) : noTriple ('\n' :: l) = true := by
  match l with
  | [] => rfl
  | [x] =>
    match hx : x == '\n' with
    | true => exact absurd (by simpa using hx) (by simpa using hh)
    | false => simp [noTriple, hx]
  | x :: y :: ys =>
    rw [noTriple]
    refine (Bool.and_eq_true _ _).mpr ⟨?_, h⟩
    have hx : ¬ x = '\n' := by simpa using hh
    simp [hx]

theorem noTriple_two_nl (l : List Char) (hh : l.head? ≠ some '\n')
    (h : noTriple l = true) : noTriple ('\n' :: '\n' :: l) = true := by
  match l with
  | [] => rfl
  | x :: xs =>
    rw [noTriple]
    refine (Bool.and_eq_true _ _).mpr ⟨?_, noTriple_nl_cons_of_head _ hh h⟩
    have hx : ¬ x = '\n' := by simpa using hh
    simp [hx]

/-- The scan does not change the head character. -/
theorem reSubGo_newline_head (fuel : Nat) (l : List Char) :
    (reSubGo newlineRunMatch fuel l).head? = l.head? := by
  match fuel, l with
  | 0, [] => rfl
  | _ + 1, [] => rfl
  | 0, _ :: _ => rfl
  | f + 1, c :: cs =>
    simp only [reSubGo]
    split
    · rename_i k repl heq
      simp only [newlineRunMatch] at heq
      split at heq
      · rename_i hcond
        cases heq
        simp [hcond.1]
      · cases heq
    · rfl

theorem mem_of_mem_drop {α : Type} (n : Nat) (l : List α) (a : α)
    (h : a ∈ l.drop n) : a ∈ l := by
  induction l generalizing n with
  | nil => simp at h
  | cons c cs ih =>
    cases n with
    | zero => exact h
    | succ m => exact List.mem_cons_of_mem c (ih m h)

/-- Characters of the collapsed list come from the input or are
newlines. -/
theorem mem_reSubGo_newline (fuel : Nat) (l : List Char) (a : Char)
    (h : a ∈ reSubGo newlineRunMatch fuel l) : a ∈ l ∨ a = '\n' := by
  induction fuel using Nat.strong_induction_on generalizing l with
  | _ f ih =>
    match f, l with
    | 0, [] => exact Or.inl h
    | _ + 1, [] => exact Or.inl h
    | 0, _ :: _ => exact Or.inl h
    | fu + 1, c :: cs =>
      simp only [reSubGo] at h
      revert h
      split
      · rename_i k repl heq
        simp only [newlineRunMatch] at heq
        split at heq
        · rename_i hcond
          cases heq
          intro h
          rcases List.mem_append.mp h with hrep | hrec
          · right
            simpa using hrep
          · rcases ih fu (Nat.lt_succ_self fu) _ hrec with hmem | hnl
            · exact Or.inl (List.mem_cons_of_mem c (mem_of_mem_drop _ _ _ hmem))
            · exact Or.inr hnl
        · cases heq
      · intro h
        rcases List.mem_cons.mp h with h1 | h2
        · exact Or.inl (h1 ▸ List.mem_cons_self c cs)
        · rcases ih fu (Nat.lt_succ_self fu) _ h2 with hmem | hnl
          · exact Or.inl (List.mem_cons_of_mem c hmem)
          · exact Or.inr hnl

theorem reSubGo_nil (m : Char → List Char → Option (Nat × List Char)) (fuel : Nat) :
    reSubGo m fuel [] = [] := by
  cases fuel <;> rfl

theorem drop_length_takeWhile {α : Type} (p : α → Bool) (l : List α) :
    l.drop ((l.takeWhile p).length) = l.dropWhile p := by
  induction l with
  | nil => rfl
  | cons c cs ih =>
    by_cases hc : p c
    · simp [List.takeWhile_cons, List.dropWhile_cons, hc, ih]
    · simp [List.takeWhile_cons, List.dropWhile_cons, hc]

theorem head_dropWhile_not {α : Type} (p : α → Bool) (l : List α) (c : α)
    (h : (l.dropWhile p).head? = some c) : p c = false := by
  induction l with
  | nil => simp at h
  | cons d ds ih =>
    by_cases hd : p d
    · rw [List.dropWhile_cons, if_pos hd] at h
      exact ih h
    · rw [List.dropWhile_cons, if_neg hd] at h
      cases h
      simpa using hd

theorem two_le_takeWhile_nl (l : List Char)
    (h : 2 ≤ (l.takeWhile (fun d => d == '\n')).length) :
    ∃ rest, l = '\n' :: '\n' :: rest := by
  match l with
  | [] => simp at h
  | c :: cs =>
    by_cases hc : c = '\n'
    · subst hc
      match cs with
      | [] => simp [List.takeWhile_cons] at h
      | d :: ds =>
        by_cases hd : d = '\n'
        · exact ⟨ds, by rw [hd]⟩
        · simp [List.takeWhile_cons, hd] at h
    · simp [List.takeWhile_cons, hc] at h

/-- The collapsed list has no triple-newline run. -/
theorem noTriple_reSubGo_newline : ∀ (fuel : Nat) (l : List Char),
    l.length ≤ fuel → noTriple (reSubGo newlineRunMatch fuel l) = true := by
  intro fuel
  induction fuel using Nat.strong_induction_on with
  | _ f ih =>
    intro l hl
    match f, l with
    | 0, [] => rfl
    | _ + 1, [] => rfl
    | 0, c :: cs => simp at hl
    | fu + 1, c :: cs =>
      simp only [reSubGo]
      split
      · rename_i k repl heq
        simp only [newlineRunMatch] at heq
        split at heq
        · rename_i hcond
          cases heq
          have hlen : (List.drop ((cs.takeWhile (fun d => d == '\n')).length) cs).length ≤ fu := by
            rw [List.length_drop]
            simp only [List.length_cons] at hl
            omega
          have hX := ih fu (Nat.lt_succ_self fu) _ hlen
          have hhead : (reSubGo newlineRunMatch fu
              (List.drop ((cs.takeWhile (fun d => d == '\n')).length) cs)).head? ≠
              some '\n' := by
            rw [reSubGo_newline_head, drop_length_takeWhile]
            intro hsome
            have := head_dropWhile_not _ _ _ hsome
            simp at this
          exact noTriple_two_nl _ hhead hX
        · cases heq
      · rename_i hnone
        have hlen : cs.length ≤ fu := by
          simp only [List.length_cons] at hl
          omega
        have hY := ih fu (Nat.lt_succ_self fu) cs hlen
        by_cases hc : c = '\n'
        · subst hc
          have hncond : ¬ (2 ≤ (cs.takeWhile (fun d => d == '\n')).length) := by
            intro h2
            rw [newlineRunMatch, if_pos ⟨rfl, h2⟩] at hnone
            cases hnone
          match cs with
          | [] =>
            rw [reSubGo_nil]
            rfl
          | d :: cs2 =>
            by_cases hd : d = '\n'
            · subst hd
              have hcs2 : cs2.head? ≠ some '\n' := by
                match cs2 with
                | [] => simp
                | x :: xs =>
                  intro hx
                  have : x = '\n' := by simpa using hx
                  subst this
                  simp [List.takeWhile_cons] at hncond
              have htw0 : (cs2.takeWhile (fun d => d == '\n')).length = 0 := by
                match cs2 with
                | [] => rfl
                | x :: xs =>
                  have hx : ¬ x = '\n' := by
                    intro hx
                    exact hcs2 (by simp [hx])
                  simp [List.takeWhile_cons, hx]
              match fu, hlen with
              | fu2 + 1, hlen =>
                simp only [reSubGo]
                rw [newlineRunMatch, if_neg (by
                  intro hand
                  omega)]
                have hZ := ih fu2 (by omega) cs2 (by
                  simp only [List.length_cons] at hlen
                  omega)
                have hZhead : (reSubGo newlineRunMatch fu2 cs2).head? ≠ some '\n' := by
                  rw [reSubGo_newline_head]
                  exact hcs2
                exact noTriple_two_nl _ hZhead hZ
            · have hdh : (reSubGo newlineRunMatch fu (d :: cs2)).head? ≠ some '\n' := by
                rw [reSubGo_newline_head]
                simp [hd]
              exact noTriple_nl_cons_of_head _ hdh hY
        · exact noTriple_cons_of_ne _ _ hc hY

/-- The collapse pass is the identity on triple-free input. -/
theorem reSubGo_newline_of_noTriple : ∀ (fuel : Nat) (l : List Char),
    l.length ≤ fuel → noTriple l = true → reSubGo newlineRunMatch fuel l = l := by
  intro fuel
  induction fuel with
  | zero =>
    intro l hl _
    cases l with
    | nil => rfl
    | cons c cs => simp at hl
  | succ f ih =>
    intro l hl hnt
    cases l with
    | nil => rfl
    | cons c cs =>
      have hnone : newlineRunMatch c cs = none := by
        rw [newlineRunMatch, if_neg]
        intro hand
        obtain ⟨rest, hrest⟩ := two_le_takeWhile_nl cs hand.2
        rw [hand.1, hrest] at hnt
        rw [noTriple] at hnt
        simp at hnt
      simp only [reSubGo, hnone]
      rw [ih cs (by simpa using Nat.le_of_succ_le_succ hl) (noTriple_tail _ _ hnt)]

theorem dropTrailingWs_append : ∀ l : List Char, ∃ t, l = dropTrailingWs l ++ t := by
  intro l
  induction l with
  | nil => exact ⟨[], rfl⟩
  | cons c cs ih =>
    obtain ⟨t, ht⟩ := ih
    rw [dropTrailingWs]
    cases h : dropTrailingWs cs with
    | nil =>
      by_cases hc : isPyWs c
      · simp only [hc, if_true]
        exact ⟨c :: cs, rfl⟩
      · simp only [hc, if_false]
        rw [h] at ht
        exact ⟨cs, by simp⟩
    | cons r rs =>
      rw [h] at ht
      exact ⟨t, by simpa using ht⟩

theorem noTriple_append_left : ∀ (a b : List Char),
    noTriple (a ++ b) = true → noTriple a = true
  | [], _, _ => rfl
  | [_], _, _ => rfl
  | [_, _], _, _ => rfl
  | c1 :: c2 :: c3 :: r, b, h => by
    rw [List.cons_append, List.cons_append, List.cons_append, noTriple] at h
    obtain ⟨h1, h2⟩ := (Bool.and_eq_true _ _).mp h
    rw [noTriple]
    refine (Bool.and_eq_true _ _).mpr ⟨h1, ?_⟩
    exact noTriple_append_left (c2 :: c3 :: r) b (by
      rw [List.cons_append, List.cons_append]
      exact h2)

theorem noTriple_append_right : ∀ (a b : List Char),
    noTriple (a ++ b) = true → noTriple b = true := by
  intro a
  induction a with
  | nil => intro b h; exact h
  | cons c cs ih =>
    intro b h
    rw [List.cons_append] at h
    exact ih b (noTriple_tail _ _ h)

theorem noTriple_pyStripList (l : List Char) (h : noTriple l = true) :
    noTriple (pyStripList l) = true := by
  have hdw : noTriple (l.dropWhile isPyWs) = true := by
    have := List.takeWhile_append_dropWhile (p := isPyWs) (l := l)
    rw [← this] at h
    exact noTriple_append_right _ _ h
  obtain ⟨t, ht⟩ := dropTrailingWs_append (l.dropWhile isPyWs)
  rw [ht] at hdw
  exact noTriple_append_left _ _ hdw

theorem mem_of_mem_dropWhile {α : Type} (p : α → Bool) (l : List α) (a : α)
    (h : a ∈ l.dropWhile p) : a ∈ l := by
  induction l with
  | nil => simp at h
  | cons c cs ih =>
    by_cases hc : p c
    · rw [List.dropWhile_cons, if_pos hc] at h
      exact List.mem_cons_of_mem c (ih h)
    · rw [List.dropWhile_cons, if_neg hc] at h
      exact h

theorem mem_of_mem_pyStripList (l : List Char) (a : Char)
    (h : a ∈ pyStripList l) : a ∈ l := by
  obtain ⟨t, ht⟩ := dropTrailingWs_append (l.dropWhile isPyWs)
  apply mem_of_mem_dropWhile isPyWs l
  rw [ht]
  exact List.mem_append_left _ h

theorem head_dropTrailingWs (l : List Char) :
    dropTrailingWs l = [] ∨ (dropTrailingWs l).head? = l.head? := by
  cases l with
  | nil => exact Or.inl rfl
  | cons c cs =>
    rw [dropTrailingWs]
    cases h : dropTrailingWs cs with
    | nil =>
      by_cases hc : isPyWs c
      · simp [hc]
      · simp [hc]
    | cons r rs => simp

theorem getLast_dropTrailingWs_not (l : List Char) (c : Char)
    (h : (dropTrailingWs l).getLast? = some c) : isPyWs c = false := by
  induction l with
  | nil => exact Option.noConfusion h
  | cons d ds ih =>
    rw [dropTrailingWs] at h
    cases hd : dropTrailingWs ds with
    | nil =>
      rw [hd] at h
      by_cases hw : isPyWs d
      · simp [hw] at h
      · rw [if_neg hw] at h
        simp only [List.getLast?_singleton] at h
        cases h
        simpa using hw
    | cons r rs =>
      rw [hd] at h
      rw [List.getLast?_cons_cons] at h
      rw [hd] at ih
      exact ih h

theorem dropTrailingWs_of_getLast (l : List Char)
    (hl : ∀ c, l.getLast? = some c → isPyWs c = false) :
    dropTrailingWs l = l := by
  induction l with
  | nil => rfl
  | cons d ds ih =>
    rw [dropTrailingWs]
    cases ds with
    | nil =>
      have := hl d (by simp)
      simp [dropTrailingWs, this]
    | cons e es =>
      have hds : dropTrailingWs (e :: es) = e :: es := by
        apply ih
        intro c hc
        apply hl
        rw [List.getLast?_cons_cons]
        exact hc
      rw [hds]

theorem dropWhile_of_head_not {α : Type} (p : α → Bool) (l : List α)
    (hl : ∀ c, l.head? = some c → p c = false) : l.dropWhile p = l := by
  cases l with
  | nil => rfl
  | cons c cs =>
    rw [List.dropWhile_cons, if_neg]
    rw [hl c rfl]
    simp

theorem pyStripList_fix (l : List Char) :
    pyStripList (pyStripList l) = pyStripList l := by
  unfold pyStripList
  have h1 : (dropTrailingWs (l.dropWhile isPyWs)).dropWhile isPyWs =
      dropTrailingWs (l.dropWhile isPyWs) := by
    apply dropWhile_of_head_not
    intro c hc
    rcases head_dropTrailingWs (l.dropWhile isPyWs) with hnil | hhead
    · rw [hnil] at hc
      cases hc
    · rw [hhead] at hc
      exact head_dropWhile_not _ _ _ hc
  rw [h1]
  apply dropTrailingWs_of_getLast
  intro c hc
  exact getLast_dropTrailingWs_not _ _ hc

/-- C9: on already-plain text — any string containing no `<` and no `&`
— sanitization only collapses runs of three or more newlines to two and
trims leading/trailing whitespace; and applying it a second time to
such an output (which again contains no `&`) returns it unchanged. -/
theorem to_plain_text_plain_idempotent (s : String)
    (hlt : ('<' : Char) ∉ s.data) (hamp : ('&' : Char) ∉ s.data) :
    to_plain_text s = pyStrip (collapseNewlines s) ∧
    to_plain_text (to_plain_text s) = to_plain_text s := by
  have htrig : ∀ (a : Char) (l : List Char), a ∉ l → ∀ c ∈ l, (c == a) = false := by
    intro a l hal c hc
    rw [beq_eq_false_iff_ne]
    intro h
    subst h
    exact hal hc
  have step : ∀ l : List Char, ('<' : Char) ∉ l → ('&' : Char) ∉ l →
      reSub matchEntity (reSub matchFormatTag (reSub matchPClose
        (reSub matchPOpen (reSub matchBr l)))) = l := by
    intro l h1 h2
    have e1 : reSub matchBr l = l :=
      reSubGo_eq_self _ _ matchBr_none l.length l (le_refl _) (htrig '<' l h1)
    rw [e1]
    have e2 : reSub matchPOpen l = l :=
      reSubGo_eq_self _ _ matchPOpen_none l.length l (le_refl _) (htrig '<' l h1)
    rw [e2]
    have e3 : reSub matchPClose l = l :=
      reSubGo_eq_self _ _ matchPClose_none l.length l (le_refl _) (htrig '<' l h1)
    rw [e3]
    have e4 : reSub matchFormatTag l = l :=
      reSubGo_eq_self _ _ matchFormatTag_none l.length l (le_refl _) (htrig '<' l h1)
    rw [e4]
    exact reSubGo_eq_self _ _ matchEntity_none l.length l (le_refl _) (htrig '&' l h2)
  have key : ∀ l : List Char, ('<' : Char) ∉ l → ('&' : Char) ∉ l →
      to_plain_text ⟨l⟩ = ⟨pyStripList (reSub newlineRunMatch l)⟩ := by
    intro l h1 h2
    show (⟨pyStripList (reSub newlineRunMatch (reSub matchEntity (reSub matchFormatTag
        (reSub matchPClose (reSub matchPOpen (reSub matchBr l))))))⟩ : String) = _
    rw [step l h1 h2]
  have hpart1 : to_plain_text s = pyStrip (collapseNewlines s) := key s.data hlt hamp
  refine ⟨hpart1, ?_⟩
  have hnt : noTriple (reSub newlineRunMatch s.data) = true :=
    noTriple_reSubGo_newline s.data.length s.data (le_refl _)
  have hntt : noTriple (pyStripList (reSub newlineRunMatch s.data)) = true :=
    noTriple_pyStripList _ hnt
  have h1t : ('<' : Char) ∉ pyStripList (reSub newlineRunMatch s.data) := by
    intro hmem
    rcases mem_reSubGo_newline _ _ _ (mem_of_mem_pyStripList _ _ hmem) with hin | hnl
    · exact hlt hin
    · exact absurd hnl (by decide)
  have h2t : ('&' : Char) ∉ pyStripList (reSub newlineRunMatch s.data) := by
    intro hmem
    rcases mem_reSubGo_newline _ _ _ (mem_of_mem_pyStripList _ _ hmem) with hin | hnl
    · exact hamp hin
    · exact absurd hnl (by decide)
  have hfix : reSub newlineRunMatch (pyStripList (reSub newlineRunMatch s.data)) =
      pyStripList (reSub newlineRunMatch s.data) :=
    reSubGo_newline_of_noTriple _ _ (le_refl _) hntt
  have hsecond := key _ h1t h2t
  rw [hfix, pyStripList_fix] at hsecond
  rw [hpart1]
  show to_plain_text ⟨pyStripList (reSub newlineRunMatch s.data)⟩ = _
  rw [hsecond]
  rfl

/-- Witness for C9 at a concrete plain string with surrounding
whitespace and a four-newline run. -/
theorem to_plain_text_plain_idempotent_witness :
    to_plain_text "  hi\n\n\n\nthere  " = pyStrip (collapseNewlines "  hi\n\n\n\nthere  ") ∧
    to_plain_text (to_plain_text "  hi\n\n\n\nthere  ") = to_plain_text "  hi\n\n\n\nthere  " :=
  to_plain_text_plain_idempotent "  hi\n\n\n\nthere  " (by decide) (by decide)
